import Mathlib

/-
Verification of `torch/distributed/_shard/sharded_tensor/api.py`.

The Python module is shallowly embedded: every class becomes a structure,
every method a pure function.  In-place mutation of a `ShardedTensor` is
modelled by returning the post-state of the object; a Python exception is
modelled by an `Except` error value (for `reshard`, which mutates `self`,
the method returns the post-state of `self` together with the
`Except`-result, so that "an exception leaves the object untouched" is a
provable statement rather than a convention).  Collective communication
(`dist.gather_object`, `all_to_all`, ...) is external to this module; its
result (the list of shard lists received by the destination) is passed to
the embedded function as an argument, and the data-exchange helpers of the
separate `reshard.py` module are passed in as function parameters.
-/

namespace TorchShard

/-! ## Basic torch value types -/

inductive DType
  | float32
  | float64
  | int32
  | int64
  deriving DecidableEq, Repr

inductive Layout
  | strided
  | sparse_coo
  deriving DecidableEq, Repr

inductive MemoryFormat
  | contiguous_format
  | preserve_format
  | channels_last
  deriving DecidableEq, Repr

inductive Device
  | cpu
  | cuda (index : Nat)
  deriving DecidableEq, Repr

/-- Mirrors `placement.device().type == "cpu"` on a `_remote_device`. -/
def Device.isCpu : Device → Bool
  | .cpu => true
  | .cuda _ => false

/-- A shard placement: owning participant rank plus device, as in
`rank:0/cuda:0` remote-device strings. -/
structure Placement where
  rank : Nat
  device : Device
  deriving DecidableEq, Repr

/-- `TensorProperties` from `metadata.py`: the per-element properties shared
by all shards of one sharded tensor. -/
structure TensorProperties where
  dtype : DType
  layout : Layout
  requires_grad : Bool
  memory_format : MemoryFormat
  pin_memory : Bool
  deriving DecidableEq, Repr

/-- `ShardMetadata`: one shard's offset box and placement. -/
structure ShardMetadata where
  shard_offsets : List Nat
  shard_sizes : List Nat
  placement : Placement
  deriving DecidableEq, Repr

/-- `ShardedTensorMetadata`: the agreed global view. -/
structure ShardedTensorMetadata where
  shards_metadata : List ShardMetadata
  size : List Nat
  tensor_properties : TensorProperties
  deriving DecidableEq, Repr

/-- A local `torch.Tensor` buffer, reduced to the observations the module
makes of it: its shape, element type, layout, device, flags, and the value
stored at each multi-index (`data`). -/
structure LocalTensor where
  sizes : List Nat
  dtype : DType
  layout : Layout
  device : Device
  requires_grad : Bool
  pinned : Bool
  contiguous : Bool
  data : List Nat → Int

/-- `Shard` from `shard.py`: a local buffer paired with its metadata. -/
structure Shard where
  tensor : LocalTensor
  metadata : ShardMetadata

/-- `ShardingSpec`: either a `ChunkShardingSpec` (chunk along one dimension
across an ordered placement list) or a spec describing an already-realized
shard layout (`EnumerableShardingSpec` / inferred spec). -/
inductive ShardingSpec
  | chunk (dim : Int) (placements : List Placement)
  | inferred (shards : List ShardMetadata)
  deriving DecidableEq, Repr

/-- `isinstance(spec, shard_spec.ChunkShardingSpec)`. -/
def ShardingSpec.isChunk : ShardingSpec → Bool
  | .chunk _ _ => true
  | .inferred _ => false

/-- The `dim` attribute of a `ChunkShardingSpec` (the spec is only read at
this attribute after an `isinstance` check, so the other branch is dead). -/
def ShardingSpec.chunkDim : ShardingSpec → Int
  | .chunk d _ => d
  | .inferred _ => 0

/-- The `placements` attribute of a `ChunkShardingSpec`. -/
def ShardingSpec.chunkPlacements : ShardingSpec → List Placement
  | .chunk _ p => p
  | .inferred _ => []

/-- An opaque remote-reference handle (`rpc.RRef[Shard]`). -/
abbrev RRefId := Nat

/-- The fields of a `ShardedTensor` instance that this module reads and
writes: `_local_shards`, `_metadata`, `_sharding_spec`, `_remote_shards`. -/
structure ShardedTensorState where
  local_shards : List Shard
  metadata : ShardedTensorMetadata
  sharding_spec : ShardingSpec
  remote_shards : Nat → Option (List RRefId)

/-! ## `ShardedTensor.size` -/

/-- Result of `ShardedTensor.size`: the whole `torch.Size` when `dim` is
`None`, a single extent otherwise. -/
inductive SizeResult
  | whole (size : List Nat)
  | extent (n : Nat)
  deriving DecidableEq, Repr

/-- `ShardedTensor.size(self, dim=None)`.  `dim` is a Python `int`, hence
modelled as `Int`; the bound check `dim < 0 or dim >= len(size)` raises a
`ValueError`, otherwise `size[dim]` is returned. -/
def ShardedTensor.size (st : ShardedTensorState) (dim : Option Int) :
    Except String SizeResult :=
  let size := st.metadata.size
  match dim with
  | none => .ok (.whole size)
  | some d =>
    if d < 0 ∨ (size.length : Int) ≤ d then
      .error "Argument dim must be within the range of tensor dimensions"
    else
      .ok (.extent (size.getD d.toNat 0))

/-! ## `reshard` -/

inductive ReshardError
  | notImplemented (msg : String)
  | runtimeError (msg : String)
  deriving DecidableEq, Repr

/-- The two data-exchange helpers imported from `reshard.py` (a module
outside the embedded source): each takes the single local tensor, the
global size and the two specs, performs collective communication, and
returns the new local shard list and the new global shard metadata list,
or fails.  They are passed to `reshard` as parameters. -/
structure ReshardExchanges where
  reshuffle_local_shard : LocalTensor → List Nat → ShardingSpec → ShardingSpec →
    Except ReshardError (List Shard × List ShardMetadata)
  reshard_local_shard : LocalTensor → List Nat → ShardingSpec → ShardingSpec →
    Except ReshardError (List Shard × List ShardMetadata)

/-- `ShardedTensor.local_tensor`: the tensor of the unique local shard. -/
def ShardedTensor.local_tensor (st : ShardedTensorState) :
    Except ReshardError LocalTensor :=
  match st.local_shards with
  | [s] => .ok s.tensor
  | _ => .error (.notImplemented "Only single local shard is supported.")

/-- `ShardedTensor.reshard(self, resharding_spec)`.  Returns the post-state
of `self` together with the call's outcome; an error outcome corresponds to
a raised exception, in which case the first component is the object as the
exception left it. -/
def ShardedTensor.reshard (ex : ReshardExchanges) (st : ShardedTensorState)
    (resharding_spec : ShardingSpec) :
    ShardedTensorState × Except ReshardError Unit :=
  if ¬(resharding_spec.isChunk = true ∧ st.sharding_spec.isChunk = true) then
    (st, .error (.notImplemented "Only ChunkShardingSpec supported for reshard."))
  else if st.local_shards.length ≠ 1 then
    (st, .error (.notImplemented "Only single local shard supported for reshard."))
  else if st.sharding_spec.chunkDim = resharding_spec.chunkDim then
    if st.sharding_spec.chunkPlacements = resharding_spec.chunkPlacements then
      (st, .ok ())
    else
      match ShardedTensor.local_tensor st with
      | .error e => (st, .error e)
      | .ok lt =>
        match ex.reshuffle_local_shard lt st.metadata.size st.sharding_spec resharding_spec with
        | .error e => (st, .error e)
        | .ok (ls, smd) =>
          ({ st with
              local_shards := ls
              metadata := { st.metadata with shards_metadata := smd }
              sharding_spec := resharding_spec },
            .ok ())
  else
    match ShardedTensor.local_tensor st with
    | .error e => (st, .error e)
    | .ok lt =>
      match ex.reshard_local_shard lt st.metadata.size st.sharding_spec resharding_spec with
      | .error e => (st, .error e)
      | .ok (ls, smd) =>
        ({ st with
            local_shards := ls
            metadata := { st.metadata with shards_metadata := smd }
            sharding_spec := resharding_spec },
          .ok ())

/-! ## Remote-shard registry -/

inductive RegistryError
  | idNotFound (sharded_tensor_id : Nat)
  | weakrefDeallocated
  deriving DecidableEq, Repr

/-- Method `ShardedTensor._register_remote_shards`: store the references
keyed by the sender's RPC rank (`self._remote_shards[rpc_rank] = remote_shards`). -/
def ShardedTensor._register_remote_shards (st : ShardedTensorState)
    (remote_shards : List RRefId) (rpc_rank : Nat) : ShardedTensorState :=
  { st with remote_shards := fun r => if r = rpc_rank then some remote_shards else st.remote_shards r }

/-- Module-level `_register_remote_shards(sharded_tensor_id, rrefs, rpc_rank)`.
The process-wide `_sharded_tensor_map` is an association list from identifier
to the weakref's current value (`none` when the weakref has been
deallocated).  On success the updated instance is returned. -/
def _register_remote_shards (tbl : List (Nat × Option ShardedTensorState))
    (sharded_tensor_id : Nat) (rrefs : List RRefId) (rpc_rank : Nat) :
    Except RegistryError ShardedTensorState :=
  match tbl.lookup sharded_tensor_id with
  | none => .error (.idNotFound sharded_tensor_id)
  | some none => .error .weakrefDeallocated
  | some (some st) => .ok (ShardedTensor._register_remote_shards st rrefs rpc_rank)

/-! ## Custom-operation dispatch (`__torch_function__`) -/

/-- An argument of an intercepted torch operation: either a `ShardedTensor`
(we record the identity of its `_process_group`) or any other value. -/
inductive FArg
  | sharded (process_group : Nat)
  | plain (value : Int)
  deriving DecidableEq, Repr

/-- A registered sharded-op handler: receives `(types, args, kwargs,
process_group)`. -/
abbrev Handler := List String → List FArg → List (String × FArg) → Nat → Int

inductive DispatchError
  | unsupported (func : String)

/-- Scan an argument list for the first `ShardedTensor` instance and return
its process group. -/
def findShardedPg : List FArg → Option Nat
  | [] => none
  | .sharded pg :: _ => some pg
  | .plain _ :: rest => findShardedPg rest

/-- `ShardedTensor.__torch_function__`: `_SHARDED_OPS` is the dispatch
table (an association list keyed by the operation name). -/
def torchFunction (sharded_ops : List (String × Handler)) (func : String)
    (types : List String) (args : List FArg) (kwargs : List (String × FArg)) :
    Except DispatchError Int :=
  match sharded_ops.lookup func with
  | some handler =>
    match findShardedPg args with
    | some pg => .ok (handler types args kwargs pg)
    | none =>
      match findShardedPg (kwargs.map Prod.snd) with
      | some pg => .ok (handler types args kwargs pg)
      | none => .error (.unsupported func)
  | none => .error (.unsupported func)

/-! ## Construction from local shards plus an agreed global metadata -/

/-- The rendered expected/actual value inside a field-mismatch diagnostic. -/
inductive PropVal
  | boolVal (b : Bool)
  | dtypeVal (d : DType)
  | layoutVal (l : Layout)
  | deviceVal (d : Device)
  | sizesVal (s : List Nat)
  deriving DecidableEq, Repr

inductive InitError
  | valueError (msg : String)
  | runtimeError (msg : String)
  | assertionError (msg : String)
  | mismatch (prop_name : String) (expected actual : PropVal) (rank : Nat) (is_property : Bool)
  deriving DecidableEq, Repr

/-- Modelled from the spec: the helper `_parse_and_validate_remote_device`
(defined in `torch/distributed/_shard/sharded_tensor/utils.py`, which is not
among the sources) splits a shard placement into the owning participant rank
and the device identifier. -/
def _parse_and_validate_remote_device (p : Placement) : Nat × Device :=
  (p.rank, p.device)

/-- The nested `_raise_if_mismatch` helper: a `ValueError` whose message
names the property, the expected value, the actual value, and the rank. -/
def _raise_if_mismatch (expected actual : PropVal) (prop_name : String)
    (rank : Nat) (is_property : Bool) : Except InitError Unit :=
  if expected ≠ actual then .error (.mismatch prop_name expected actual rank is_property)
  else .ok ()

/-- Sequencing of two validation steps: the first raised exception wins. -/
def seqChecks (a b : Except InitError Unit) : Except InitError Unit :=
  match a with
  | .error e => .error e
  | .ok _ => b

/-- The body of the per-shard validation loop of
`_init_from_local_shards_and_global_metadata` (lines 590-608). -/
def validateLocalShard (tp : TensorProperties) (current_rank : Nat)
    (local_shard_metadatas : List ShardMetadata) (shard : Shard) :
    Except InitError Unit :=
  let shard_meta := shard.metadata
  let t := shard.tensor
  let local_device := (_parse_and_validate_remote_device shard_meta.placement).2
  seqChecks
    (if shard_meta ∈ local_shard_metadatas then .ok ()
     else .error (.assertionError "local shard metadata not in sharded_tensor_metadata!")) <|
  seqChecks (_raise_if_mismatch (.layoutVal tp.layout) (.layoutVal t.layout) "layout" current_rank true) <|
  seqChecks
    (if t.contiguous then .ok ()
     else .error (.valueError "Only torch.contiguous_format memory_format is currently supported")) <|
  seqChecks (_raise_if_mismatch (.sizesVal shard_meta.shard_sizes) (.sizesVal t.sizes) "size" current_rank false) <|
  seqChecks (_raise_if_mismatch (.boolVal tp.pin_memory) (.boolVal t.pinned) "pin_memory" current_rank true) <|
  seqChecks (_raise_if_mismatch (.deviceVal local_device) (.deviceVal t.device) "device" current_rank false) <|
  seqChecks (_raise_if_mismatch (.dtypeVal tp.dtype) (.dtypeVal t.dtype) "dtype" current_rank true) <|
  _raise_if_mismatch (.boolVal tp.requires_grad) (.boolVal t.requires_grad) "requires_grad" current_rank true

/-- The per-shard validation loop (`for shard in local_shards`). -/
def validateLocalShards (tp : TensorProperties) (current_rank : Nat)
    (local_shard_metadatas : List ShardMetadata) :
    List Shard → Except InitError Unit
  | [] => .ok ()
  | s :: rest =>
    seqChecks (validateLocalShard tp current_rank local_shard_metadatas s)
      (validateLocalShards tp current_rank local_shard_metadatas rest)

/-- Whether the `[offset, offset+size)` boxes of two shards are disjoint:
they are separated along at least one dimension. -/
def boxDisjoint (a b : ShardMetadata) : Bool :=
  (List.range a.shard_offsets.length).any fun d =>
    decide (a.shard_offsets.getD d 0 + a.shard_sizes.getD d 0 ≤ b.shard_offsets.getD d 0 ∨
      b.shard_offsets.getD d 0 + b.shard_sizes.getD d 0 ≤ a.shard_offsets.getD d 0)

/-- No two shard boxes of the list overlap. -/
def pairwiseNonOverlapping : List ShardMetadata → Bool
  | [] => true
  | m :: rest => rest.all (fun m2 => boxDisjoint m m2) && pairwiseNonOverlapping rest

/-- Modelled from the spec: `validate_non_overlapping_shards_metadata` (from
`torch/distributed/_shard/sharding_spec/_internals.py`, not among the
sources) checks that no two shard boxes overlap in the global index space. -/
def validate_non_overlapping_shards_metadata (l : List ShardMetadata) :
    Except InitError Unit :=
  if pairwiseNonOverlapping l then .ok ()
  else .error (.valueError "Shards overlap")

/-- Number of elements of a shard box. -/
def boxVolume (m : ShardMetadata) : Nat := m.shard_sizes.foldl (· * ·) 1

/-- A shard box has the dimensionality of the global shape and lies within
`[0, size)` in every dimension. -/
def withinBounds (size : List Nat) (m : ShardMetadata) : Bool :=
  m.shard_offsets.length = size.length && m.shard_sizes.length = size.length &&
    (List.range size.length).all fun d =>
      decide (m.shard_offsets.getD d 0 + m.shard_sizes.getD d 0 ≤ size.getD d 0)

/-- Modelled from the spec: `check_tensor` (from
`torch/distributed/_shard/sharding_spec/_internals.py`, not among the
sources) checks that every shard box lies within the global shape and that
the shard boxes account for the full volume of the tensor. -/
def check_tensor (shards_metadata : List ShardMetadata) (size : List Nat) :
    Except InitError Unit :=
  if shards_metadata.all (withinBounds size) ∧
      (shards_metadata.map boxVolume).sum = size.foldl (· * ·) 1 then .ok ()
  else .error (.valueError "Incompatible ShardMetadata and global size")

/-- Modelled from the spec: `_infer_sharding_spec_from_shards_metadata`
(from `torch/distributed/_shard/sharding_spec`, not among the sources)
produces a spec object describing an already-realized shard layout. -/
def _infer_sharding_spec_from_shards_metadata (l : List ShardMetadata) :
    ShardingSpec :=
  .inferred l

/-- `ShardedTensor._init_from_local_shards_and_global_metadata` (lines
529-622).  `current_rank` is `dist.get_rank(process_group)`. -/
def ShardedTensor._init_from_local_shards_and_global_metadata
    (current_rank : Nat) (local_shards : List Shard)
    (sharded_tensor_metadata : ShardedTensorMetadata) :
    Except InitError ShardedTensorState :=
  let shards_metadata := sharded_tensor_metadata.shards_metadata
  let tensor_properties := sharded_tensor_metadata.tensor_properties
  if shards_metadata.length = 0 then
    .error (.valueError "shards_metadata must not be empty!")
  else if tensor_properties.layout ≠ Layout.strided then
    .error (.valueError "Only torch.strided layout is currently supported")
  else
    let local_shard_metadatas := shards_metadata.filter
      (fun m => (_parse_and_validate_remote_device m.placement).1 = current_rank)
    if local_shards.length ≠ local_shard_metadatas.length then
      .error (.runtimeError "Number of local shards does not match number of local shards metadata in sharded_tensor_metadata")
    else
      match validateLocalShards tensor_properties current_rank local_shard_metadatas local_shards with
      | .error e => .error e
      | .ok _ =>
        match validate_non_overlapping_shards_metadata shards_metadata with
        | .error e => .error e
        | .ok _ =>
          match check_tensor shards_metadata sharded_tensor_metadata.size with
          | .error e => .error e
          | .ok _ =>
            .ok {
              local_shards := local_shards
              metadata := sharded_tensor_metadata
              sharding_spec := _infer_sharding_spec_from_shards_metadata shards_metadata
              remote_shards := fun _ => none }

/-! ## `cpu` -/

/-- Modelled from the spec: `Tensor.cpu` is part of the device/buffer
allocator collaborator ("copy/move of buffer contents across devices").  A
tensor already in CPU memory is returned unchanged; otherwise a copy on the
CPU device is produced (a fresh copy does not reside in pinned memory). -/
def LocalTensor.cpu (t : LocalTensor) (memory_format : MemoryFormat) : LocalTensor :=
  if t.device = Device.cpu then t
  else { t with device := Device.cpu, pinned := false }

/-- `metadata.placement._device = torch.device("cpu")`. -/
def setPlacementDeviceCpu (m : ShardMetadata) : ShardMetadata :=
  { m with placement := { m.placement with device := Device.cpu } }

/-- Result of `ShardedTensor.cpu`: either the very same instance (`same`,
the no-copy path) or a freshly constructed instance. -/
inductive CpuResult
  | same
  | fresh (st : ShardedTensorState)

/-- `ShardedTensor.cpu(self, memory_format=torch.preserve_format, process_group=None)`
(lines 317-370). -/
def ShardedTensor.cpu (current_rank : Nat) (st : ShardedTensorState)
    (memory_format : MemoryFormat) : Except InitError CpuResult :=
  if memory_format ≠ MemoryFormat.preserve_format ∧
      memory_format ≠ MemoryFormat.contiguous_format then
    .error (.runtimeError "Only torch.contiguous_format or torch.preserve_format is supported!")
  else
    let all_on_cpu := st.metadata.shards_metadata.all fun meta => meta.placement.device.isCpu
    if all_on_cpu then
      .ok CpuResult.same
    else
      let list_shards := st.local_shards.map fun shard =>
        Shard.mk (shard.tensor.cpu memory_format) (setPlacementDeviceCpu shard.metadata)
      let st_meta := { st.metadata with
        shards_metadata := st.metadata.shards_metadata.map fun meta =>
          if meta.placement.device.isCpu then meta else setPlacementDeviceCpu meta }
      match ShardedTensor._init_from_local_shards_and_global_metadata
          current_rank list_shards st_meta with
      | .error e => .error e
      | .ok st_cpu => .ok (CpuResult.fresh st_cpu)

/-- Per-shard consistency of a `ShardedTensor` instance with its own
metadata: exactly the facts that `_init_from_local_shards_and_global_metadata`
validated when the instance was built.  `localMetas` is the sub-list of the
metadata's shards placed on the current rank. -/
def shardConsistent (tp : TensorProperties) (localMetas : List ShardMetadata)
    (s : Shard) : Bool :=
  decide (s.metadata ∈ localMetas) &&
  (s.tensor.layout == tp.layout) &&
  s.tensor.contiguous &&
  (s.tensor.sizes == s.metadata.shard_sizes) &&
  (s.tensor.pinned == tp.pin_memory) &&
  (s.tensor.device == Device.cpu || !s.tensor.pinned) &&
  (s.tensor.dtype == tp.dtype) &&
  (s.tensor.requires_grad == tp.requires_grad)

/-- The invariants every properly constructed `ShardedTensor` satisfies
(they are established by each of the three construction protocols). -/
def wellFormedForCpu (current_rank : Nat) (st : ShardedTensorState) : Bool :=
  (st.metadata.shards_metadata.length != 0) &&
  (st.metadata.tensor_properties.layout == Layout.strided) &&
  (st.local_shards.length ==
    (st.metadata.shards_metadata.filter
      (fun m => (_parse_and_validate_remote_device m.placement).1 = current_rank)).length) &&
  st.local_shards.all
    (shardConsistent st.metadata.tensor_properties
      (st.metadata.shards_metadata.filter
        (fun m => (_parse_and_validate_remote_device m.placement).1 = current_rank))) &&
  pairwiseNonOverlapping st.metadata.shards_metadata &&
  st.metadata.shards_metadata.all (withinBounds st.metadata.size) &&
  ((st.metadata.shards_metadata.map boxVolume).sum == st.metadata.size.foldl (· * ·) 1)

/-! ## `gather` -/

inductive GatherError
  | valueError (msg : String)
  | runtimeError (msg : String)
  deriving DecidableEq, Repr

/-- The full output tensor on the destination rank: its shape and the value
stored at each multi-index. -/
structure NDTensor where
  sizes : List Nat
  data : List Nat → Int

/-- A narrowing view into a base tensor: the region
`[offsets[d], offsets[d]+sizes[d])` in each dimension. -/
structure TensorView where
  offsets : List Nat
  sizes : List Nat

/-- `view.narrow(dim, start, length)`: restrict one dimension; `start` is
relative to the view. -/
def TensorView.narrow (v : TensorView) (dim start len : Nat) : TensorView :=
  { offsets := v.offsets.set dim (v.offsets.getD dim 0 + start)
    sizes := v.sizes.set dim len }

/-- The loop `for dim in range(dims): out_narrow_view = out_narrow_view.narrow(
dim, metadata.shard_offsets[dim], metadata.shard_sizes[dim])`, written with
the current dimension `d` and the number `n` of remaining dimensions. -/
def narrowAllDims (md : ShardMetadata) : TensorView → Nat → Nat → TensorView
  | v, _, 0 => v
  | v, d, Nat.succ n =>
    narrowAllDims md (v.narrow d (md.shard_offsets.getD d 0) (md.shard_sizes.getD d 0)) (d + 1) n

/-- Whether a multi-index (read through the first `dims` coordinates) lies in
the region addressed by a view. -/
def viewContains (v : TensorView) (dims : Nat) (idx : List Nat) : Bool :=
  (List.range dims).all fun d =>
    decide (v.offsets.getD d 0 ≤ idx.getD d 0 ∧
      idx.getD d 0 < v.offsets.getD d 0 + v.sizes.getD d 0)

/-- Translate a base-tensor multi-index into view coordinates. -/
def viewTranslate (v : TensorView) (dims : Nat) (idx : List Nat) : List Nat :=
  (List.range dims).map fun d => idx.getD d 0 - v.offsets.getD d 0

/-- `out_narrow_view.copy_(tensor)`: through the view, the base tensor is
overwritten with the source inside the view's region and untouched
elsewhere. -/
def copyInto (dims : Nat) (base : List Nat → Int) (v : TensorView)
    (src : List Nat → Int) : List Nat → Int :=
  fun idx =>
    if viewContains v dims idx then src (viewTranslate v dims idx) else base idx

/-- The body of the inner loop of `gather` on the destination: build the
narrowed view for one shard and copy the shard's data into it. -/
def writeShardIntoOut (dims : Nat) (out : NDTensor) (shard : Shard) : NDTensor :=
  let out_narrow_view :=
    narrowAllDims shard.metadata ⟨List.replicate dims 0, out.sizes⟩ 0 dims
  { out with data := copyInto dims out.data out_narrow_view shard.tensor.data }

/-- `for shard in shards: ... out_narrow_view.copy_(tensor)`. -/
def writeShardList (dims : Nat) (out : NDTensor) : List Shard → NDTensor
  | [] => out
  | s :: rest => writeShardList dims (writeShardIntoOut dims out s) rest

/-- `for shards in gathered_shards: if shards is None: raise ...; for shard
in shards: ...`. -/
def processGatheredShards (dims : Nat) :
    List (Option (List Shard)) → NDTensor → Except GatherError NDTensor
  | [], out => .ok out
  | none :: _, _ => .error (.runtimeError "Gathered shards cannot be None on dst rank")
  | some shards :: rest, out => processGatheredShards dims rest (writeShardList dims out shards)

/-- Modelled from the spec: `_validate_output_tensor_for_gather` (from
`torch/distributed/_shard/sharded_tensor/utils.py`, not among the sources)
checks, before any communication, that `out` is a full-size buffer on the
destination rank and absent on every other rank. -/
def _validate_output_tensor_for_gather (rank dst : Nat) (full_size : List Nat)
    (out : Option NDTensor) : Except GatherError Unit :=
  if rank = dst then
    match out with
    | none => .error (.valueError "Argument out must be specified on destination rank")
    | some o =>
      if o.sizes = full_size then .ok ()
      else .error (.valueError "Argument out must match the size of the sharded tensor")
  else
    match out with
    | none => .ok ()
    | some _ => .error (.valueError "Argument out must NOT be specified on non-destination ranks")

/-- `ShardedTensor.gather(self, dst=0, out=None)` (lines 256-315).  `rank`
is this participant's rank in the process group; `gathered_shards` is what
the collective `dist.gather_object` delivered to the destination (on
non-destination ranks the collective leaves the list empty and the function
never reads it).  The returned value is the state of the output buffer
after the call. -/
def ShardedTensor.gather (st : ShardedTensorState) (rank dst : Nat)
    (out : Option NDTensor) (gathered_shards : List (Option (List Shard))) :
    Except GatherError (Option NDTensor) :=
  let full_size := st.metadata.size
  match _validate_output_tensor_for_gather rank dst full_size out with
  | .error e => .error e
  | .ok _ =>
    if rank = dst then
      match out with
      | none => .error (.valueError "out Tensor must be provided on dst rank!")
      | some o =>
        let dims := full_size.length
        match processGatheredShards dims gathered_shards o with
        | .error e => .error e
        | .ok o2 => .ok (some o2)
    else
      .ok out

/-- Whether a multi-index lies in the box of one shard's metadata. -/
def shardContains (md : ShardMetadata) (dims : Nat) (idx : List Nat) : Bool :=
  (List.range dims).all fun d =>
    decide (md.shard_offsets.getD d 0 ≤ idx.getD d 0 ∧
      idx.getD d 0 < md.shard_offsets.getD d 0 + md.shard_sizes.getD d 0)

/-- Translate a global multi-index into shard-local coordinates. -/
def shardTranslate (md : ShardMetadata) (dims : Nat) (idx : List Nat) : List Nat :=
  (List.range dims).map fun d => idx.getD d 0 - md.shard_offsets.getD d 0

/-- Pairwise disjointness of the boxes of a list of shards. -/
def shardsNonOverlapping : List Shard → Bool
  | [] => true
  | s :: rest => rest.all (fun s2 => boxDisjoint s.metadata s2.metadata) &&
      shardsNonOverlapping rest

/-- Concatenate the shard lists received from all ranks, in order. -/
def flattenEntries : List (Option (List Shard)) → List Shard
  | [] => []
  | none :: rest => flattenEntries rest
  | some l :: rest => l ++ flattenEntries rest

/-! ## Serialization (`__getstate__` / `__setstate__`) -/

/-- `ShardedTensor.ProcessGroupState`: the rank/world-size snapshot taken at
save time by `__getstate__`. -/
structure ProcessGroupState where
  local_rank : Nat
  global_rank : Nat
  local_world_size : Nat
  global_world_size : Nat
  deriving DecidableEq, Repr

/-- The tuple returned by `__getstate__`. -/
structure SavedState where
  local_shards : List Shard
  metadata : ShardedTensorMetadata
  pg_state : ProcessGroupState
  sharding_spec : ShardingSpec
  init_rrefs : Bool

/-- The distributed environment observed by `__setstate__` at load time:
whether `distributed_c10d.is_initialized()` holds, plus the process's
current rank/world-size values. -/
structure DistEnv where
  defaultGroupSet : Bool
  local_rank : Nat
  global_rank : Nat
  local_world_size : Nat
  global_world_size : Nat

inductive LoadError
  | noProcessGroup
  | mismatch (field : String) (saved current : Nat)
  deriving DecidableEq, Repr

/-- `ShardedTensor.__setstate__`. -/
def ShardedTensor.setstate (env : DistEnv) (state : SavedState) :
    Except LoadError ShardedTensorState :=
  if ¬env.defaultGroupSet then
    .error .noProcessGroup
  else if state.pg_state.local_rank ≠ env.local_rank then
    .error (.mismatch "Local rank" state.pg_state.local_rank env.local_rank)
  else if state.pg_state.global_rank ≠ env.global_rank then
    .error (.mismatch "Global rank" state.pg_state.global_rank env.global_rank)
  else if state.pg_state.local_world_size ≠ env.local_world_size then
    .error (.mismatch "Local world size" state.pg_state.local_world_size env.local_world_size)
  else if state.pg_state.global_world_size ≠ env.global_world_size then
    .error (.mismatch "Global world size" state.pg_state.global_world_size env.global_world_size)
  else
    .ok {
      local_shards := state.local_shards
      metadata := state.metadata
      sharding_spec := state.sharding_spec
      remote_shards := fun _ => none }

/-! ## Concrete sample objects (used by the evaluation theorems below) -/

/-- Shared tensor properties of the samples: fp32, strided, contiguous. -/
def tpSample : TensorProperties :=
  ⟨DType.float32, Layout.strided, false, MemoryFormat.contiguous_format, false⟩

/-- Shard of rank 0: rows `[0, 2)` of a one-dimensional size-4 tensor. -/
def mdA : ShardMetadata := ⟨[0], [2], ⟨0, Device.cpu⟩⟩

/-- Shard of rank 1: rows `[2, 4)`. -/
def mdB : ShardMetadata := ⟨[2], [2], ⟨1, Device.cpu⟩⟩

def tensorA : LocalTensor :=
  ⟨[2], DType.float32, Layout.strided, Device.cpu, false, false, true,
    fun idx => (idx.getD 0 0 : Int) + 10⟩

def tensorB : LocalTensor :=
  ⟨[2], DType.float32, Layout.strided, Device.cpu, false, false, true,
    fun idx => (idx.getD 0 0 : Int) + 20⟩

def shardA : Shard := ⟨tensorA, mdA⟩

def shardB : Shard := ⟨tensorB, mdB⟩

/-- Global metadata of a `[4]`-shaped tensor chunked over two ranks. -/
def stMetaSample : ShardedTensorMetadata := ⟨[mdA, mdB], [4], tpSample⟩

/-- The rank-0 instance of the sample tensor. -/
def stSample : ShardedTensorState :=
  ⟨[shardA], stMetaSample,
    ShardingSpec.chunk 0 [⟨0, Device.cpu⟩, ⟨1, Device.cpu⟩], fun _ => none⟩

/-- An instance holding two local shards (both boxes of the sample). -/
def stTwoShards : ShardedTensorState :=
  ⟨[shardA, ⟨tensorB, ⟨[2], [2], ⟨0, Device.cpu⟩⟩⟩], stMetaSample,
    ShardingSpec.chunk 0 [⟨0, Device.cpu⟩], fun _ => none⟩

/-- Exchange helpers that are never consulted on the paths exercised. -/
def exSample : ReshardExchanges :=
  ⟨fun _ _ _ _ => .error (.runtimeError "unused"),
    fun _ _ _ _ => .error (.runtimeError "unused")⟩

/-- Single-shard global metadata covering the whole `[2]`-shaped tensor. -/
def mdOne : ShardedTensorMetadata := ⟨[mdA], [2], tpSample⟩

/-- A local shard matching `mdOne` in every field except that its buffer is
not contiguous. -/
def shardNotContiguous : Shard :=
  ⟨⟨[2], DType.float32, Layout.strided, Device.cpu, false, false, false,
      fun idx => (idx.getD 0 0 : Int) + 10⟩, mdA⟩

/-- A local shard matching `mdOne` in every field except its element type. -/
def shardWrongDtype : Shard :=
  ⟨⟨[2], DType.float64, Layout.strided, Device.cpu, false, false, true,
      fun idx => (idx.getD 0 0 : Int) + 10⟩, mdA⟩

/-- A single-shard instance placed on a CUDA device. -/
def mdCuda : ShardMetadata := ⟨[0], [2], ⟨0, Device.cuda 0⟩⟩

def tensorCuda : LocalTensor :=
  ⟨[2], DType.float32, Layout.strided, Device.cuda 0, false, false, true,
    fun idx => (idx.getD 0 0 : Int) + 10⟩

def stCuda : ShardedTensorState :=
  ⟨[⟨tensorCuda, mdCuda⟩], ⟨[mdCuda], [2], tpSample⟩,
    ShardingSpec.chunk 0 [⟨0, Device.cuda 0⟩], fun _ => none⟩

/-- Output buffer sample for `gather`: a zero-filled `[4]` tensor. -/
def outSample : NDTensor := ⟨[4], fun _ => 0⟩

/-- Shard lists as received by the destination, in rank order. -/
def gatheredSample : List (Option (List Shard)) := [some [shardA], some [shardB]]

/-- The same shards received in the opposite order. -/
def gatheredSampleRev : List (Option (List Shard)) := [some [shardB], some [shardA]]

/-- Registry sample: identifier `0` maps to a live instance. -/
def tblSample : List (Nat × Option ShardedTensorState) := [(0, some stSample)]

/-- A handler sample returning its process group. -/
def handlerSample : Handler := fun _ _ _ pg => (pg : Int)

def opsSample : List (String × Handler) := [("linear", handlerSample)]

/-- A saved-state/environment pair whose snapshot matches the environment. -/
def pgStateSample : ProcessGroupState := ⟨0, 0, 2, 2⟩

def savedSample : SavedState :=
  ⟨[shardA], stMetaSample, pgStateSample,
    ShardingSpec.chunk 0 [⟨0, Device.cpu⟩, ⟨1, Device.cpu⟩], false⟩

def envSample : DistEnv := ⟨true, 0, 1, 2, 2⟩

/-! ## Theorems -/

/-- C9: for every `ShardedTensor` and integer `dim`, `size(dim)` returns the
extent of dimension `dim` when `0 ≤ dim < number of dimensions`, and raises
a `ValueError` otherwise; in particular a negative `dim` is rejected rather
than interpreted as counting from the end. -/
theorem c9_size_dim_bounds (st : ShardedTensorState) (d : Int) :
    (0 ≤ d → d < (st.metadata.size.length : Int) →
      ShardedTensor.size st (some d) = .ok (.extent (st.metadata.size.getD d.toNat 0))) ∧
    ((d < 0 ∨ (st.metadata.size.length : Int) ≤ d) →
      ShardedTensor.size st (some d) =
        .error "Argument dim must be within the range of tensor dimensions") ∧
    (d < 0 →
      ShardedTensor.size st (some d) =
        .error "Argument dim must be within the range of tensor dimensions") := by
  refine ⟨fun h0 hlt => ?_, fun hbad => ?_, fun hneg => ?_⟩
  · simp only [ShardedTensor.size]
    rw [if_neg (by omega)]
  · simp only [ShardedTensor.size]
    rw [if_pos hbad]
  · simp only [ShardedTensor.size]
    rw [if_pos (Or.inl hneg)]

/-- Witness for C9 at the sample instance: dimension 0 of the `[4]`-shaped
sample has extent 4, and index `-1` is rejected. -/
theorem c9_size_dim_bounds_witness :
    ShardedTensor.size stSample (some 0) = .ok (.extent 4) ∧
    ShardedTensor.size stSample (some (-1)) =
      .error "Argument dim must be within the range of tensor dimensions" :=
  ⟨(c9_size_dim_bounds stSample 0).1 (by decide) (by decide),
    (c9_size_dim_bounds stSample (-1)).2.2 (by decide)⟩

/-- C6: on loading a persisted `ShardedTensor`, the four saved rank /
world-size fields are each compared against the current environment; any
mismatch aborts the load with an error naming the differing field together
with the saved and current values, and a load in a process with no
initialized default group fails before any field check. -/
theorem c6_setstate_checks (env : DistEnv) (s : SavedState) :
    (env.defaultGroupSet = false →
      ShardedTensor.setstate env s = .error .noProcessGroup) ∧
    (env.defaultGroupSet = true →
      (s.pg_state.local_rank ≠ env.local_rank →
        ShardedTensor.setstate env s =
          .error (.mismatch "Local rank" s.pg_state.local_rank env.local_rank)) ∧
      (s.pg_state.local_rank = env.local_rank →
        s.pg_state.global_rank ≠ env.global_rank →
        ShardedTensor.setstate env s =
          .error (.mismatch "Global rank" s.pg_state.global_rank env.global_rank)) ∧
      (s.pg_state.local_rank = env.local_rank →
        s.pg_state.global_rank = env.global_rank →
        s.pg_state.local_world_size ≠ env.local_world_size →
        ShardedTensor.setstate env s =
          .error (.mismatch "Local world size" s.pg_state.local_world_size env.local_world_size)) ∧
      (s.pg_state.local_rank = env.local_rank →
        s.pg_state.global_rank = env.global_rank →
        s.pg_state.local_world_size = env.local_world_size →
        s.pg_state.global_world_size ≠ env.global_world_size →
        ShardedTensor.setstate env s =
          .error (.mismatch "Global world size" s.pg_state.global_world_size env.global_world_size)) ∧
      ((s.pg_state.local_rank ≠ env.local_rank ∨
        s.pg_state.global_rank ≠ env.global_rank ∨
        s.pg_state.local_world_size ≠ env.local_world_size ∨
        s.pg_state.global_world_size ≠ env.global_world_size) →
        ∃ f a b, ShardedTensor.setstate env s = .error (.mismatch f a b))) := by
  constructor
  · intro h
    simp [ShardedTensor.setstate, h]
  · intro h
    refine ⟨fun h1 => ?_, fun h1 h2 => ?_, fun h1 h2 h3 => ?_, fun h1 h2 h3 h4 => ?_, fun hbad => ?_⟩
    · simp [ShardedTensor.setstate, h, h1]
    · simp [ShardedTensor.setstate, h, h1, h2]
    · simp [ShardedTensor.setstate, h, h1, h2, h3]
    · simp [ShardedTensor.setstate, h, h1, h2, h3, h4]
    · by_cases h1 : s.pg_state.local_rank = env.local_rank
      · by_cases h2 : s.pg_state.global_rank = env.global_rank
        · by_cases h3 : s.pg_state.local_world_size = env.local_world_size
          · have h4 : s.pg_state.global_world_size ≠ env.global_world_size := by
              rcases hbad with hb | hb | hb | hb <;> first | exact absurd h1 hb | exact absurd h2 hb | exact absurd h3 hb | exact hb
            exact ⟨"Global world size", s.pg_state.global_world_size, env.global_world_size,
              by simp [ShardedTensor.setstate, h, h1, h2, h3, h4]⟩
          · exact ⟨"Local world size", s.pg_state.local_world_size, env.local_world_size,
              by simp [ShardedTensor.setstate, h, h1, h2, h3]⟩
        · exact ⟨"Global rank", s.pg_state.global_rank, env.global_rank,
            by simp [ShardedTensor.setstate, h, h1, h2]⟩
      · exact ⟨"Local rank", s.pg_state.local_rank, env.local_rank,
          by simp [ShardedTensor.setstate, h, h1]⟩

/-- Witness for C6: the sample environment has global rank 1 while the
snapshot saved global rank 0 (local ranks agree), so the load aborts naming
the global-rank field with both values. -/
theorem c6_setstate_checks_witness :
    ShardedTensor.setstate envSample savedSample = .error (.mismatch "Global rank" 0 1) :=
  ((c6_setstate_checks envSample savedSample).2 rfl).2.1 rfl (by decide)

/-- C7: an inbound remote-shard registration naming an identifier absent
from the process-wide registry fails with an error naming the identifier;
an identifier whose weak handle has expired likewise fails; only when the
instance is alive are the references stored, keyed by the sender's rank,
leaving every other field and every other sender entry unchanged. -/
theorem c7_register_remote_shards (tbl : List (Nat × Option ShardedTensorState))
    (sharded_tensor_id : Nat) (rrefs : List RRefId) (rpc_rank : Nat) :
    (tbl.lookup sharded_tensor_id = none →
      _register_remote_shards tbl sharded_tensor_id rrefs rpc_rank =
        .error (.idNotFound sharded_tensor_id)) ∧
    (tbl.lookup sharded_tensor_id = some none →
      _register_remote_shards tbl sharded_tensor_id rrefs rpc_rank =
        .error .weakrefDeallocated) ∧
    (∀ st, tbl.lookup sharded_tensor_id = some (some st) →
      ∃ st2, _register_remote_shards tbl sharded_tensor_id rrefs rpc_rank = .ok st2 ∧
        st2.remote_shards rpc_rank = some rrefs ∧
        (∀ r, r ≠ rpc_rank → st2.remote_shards r = st.remote_shards r) ∧
        st2.local_shards = st.local_shards ∧
        st2.metadata = st.metadata ∧
        st2.sharding_spec = st.sharding_spec) := by
  refine ⟨fun h => ?_, fun h => ?_, fun st h => ?_⟩
  · simp [_register_remote_shards, h]
  · simp [_register_remote_shards, h]
  · refine ⟨ShardedTensor._register_remote_shards st rrefs rpc_rank,
      by simp [_register_remote_shards, h], ?_, ?_, rfl, rfl, rfl⟩
    · simp [ShardedTensor._register_remote_shards]
    · intro r hr
      simp [ShardedTensor._register_remote_shards, hr]

/-- Witness for C7: registering references from sender rank 1 under the
live identifier 0 of the sample registry stores them under key 1. -/
theorem c7_register_remote_shards_witness :
    ∃ st2, _register_remote_shards tblSample 0 [7, 8] 1 = .ok st2 ∧
      st2.remote_shards 1 = some [7, 8] ∧
      st2.remote_shards 0 = stSample.remote_shards 0 :=
  match (c7_register_remote_shards tblSample 0 [7, 8] 1).2.2 stSample rfl with
  | ⟨st2, h1, h2, h3, _⟩ => ⟨st2, h1, h2, h3 0 (by decide)⟩

/-- C8: when a torch operation is applied to a `ShardedTensor` value, a
registered handler is invoked with `(types, args, kwargs, process_group)`
where the process group is that of the first `ShardedTensor` among the
positional arguments, falling back to the keyword arguments; an operation
with no registered handler fails with an unsupported-operation error naming
the operation. -/
theorem c8_torch_function (ops : List (String × Handler)) (func : String)
    (types : List String) (args : List FArg) (kwargs : List (String × FArg)) :
    (∀ h, ops.lookup func = some h →
      (∀ pg, findShardedPg args = some pg →
        torchFunction ops func types args kwargs = .ok (h types args kwargs pg)) ∧
      (findShardedPg args = none →
        ∀ pg, findShardedPg (kwargs.map Prod.snd) = some pg →
          torchFunction ops func types args kwargs = .ok (h types args kwargs pg))) ∧
    (ops.lookup func = none →
      torchFunction ops func types args kwargs = .error (.unsupported func)) ∧
    (∀ pg rest, findShardedPg (.sharded pg :: rest) = some pg) ∧
    (∀ v rest, findShardedPg (.plain v :: rest) = findShardedPg rest) := by
  refine ⟨fun h hh => ⟨fun pg hp => ?_, fun hn pg hp => ?_⟩, fun hn => ?_,
    fun pg rest => rfl, fun v rest => rfl⟩
  · simp [torchFunction, hh, hp]
  · simp [torchFunction, hh, hn, hp]
  · simp [torchFunction, hn]

/-- Witness for C8: dispatching the registered sample op with a plain
argument followed by a sharded one picks the sharded argument's group 5;
an unregistered op name fails naming the op. -/
theorem c8_torch_function_witness :
    torchFunction opsSample "linear" [] [.plain 3, .sharded 5] [] =
      .ok (handlerSample [] [.plain 3, .sharded 5] [] 5) ∧
    torchFunction opsSample "matmul" [] [.sharded 5] [] = .error (.unsupported "matmul") :=
  ⟨((c8_torch_function opsSample "linear" [] [.plain 3, .sharded 5] []).1
      handlerSample rfl).1 5 rfl,
    (c8_torch_function opsSample "matmul" [] [.sharded 5] []).2.1 rfl⟩

/-- C5: `reshard(new_spec)` fails fast — before any communication (the
result does not depend on the exchange helpers) and before any state change
— whenever either spec is not of the chunk kind or the instance holds a
number of local shards different from one, and the error names the
unsupported case. -/
theorem c5_reshard_fails_fast (ex : ReshardExchanges) (st : ShardedTensorState)
    (spec : ShardingSpec)
    (h : ¬(spec.isChunk = true ∧ st.sharding_spec.isChunk = true) ∨
      st.local_shards.length ≠ 1) :
    (ShardedTensor.reshard ex st spec).1 = st ∧
    ((ShardedTensor.reshard ex st spec).2 =
        .error (.notImplemented "Only ChunkShardingSpec supported for reshard.") ∨
      (ShardedTensor.reshard ex st spec).2 =
        .error (.notImplemented "Only single local shard supported for reshard.")) ∧
    (∀ ex2, ShardedTensor.reshard ex2 st spec = ShardedTensor.reshard ex st spec) := by
  by_cases hc : spec.isChunk = true ∧ st.sharding_spec.isChunk = true
  · have hl : st.local_shards.length ≠ 1 := by
      rcases h with hb | hb
      · exact absurd hc hb
      · exact hb
    refine ⟨?_, Or.inr ?_, fun ex2 => ?_⟩ <;>
      simp [ShardedTensor.reshard, hc, hl]
  · refine ⟨?_, Or.inl ?_, fun ex2 => ?_⟩ <;>
      simp [ShardedTensor.reshard, hc]

/-- Witness for C5: the two-local-shard sample with a chunk target spec
fails fast with the single-local-shard error and is left unchanged. -/
theorem c5_reshard_fails_fast_witness :
    (ShardedTensor.reshard exSample stTwoShards
      (ShardingSpec.chunk 0 [⟨0, Device.cpu⟩])).1 = stTwoShards ∧
    ((ShardedTensor.reshard exSample stTwoShards (ShardingSpec.chunk 0 [⟨0, Device.cpu⟩])).2 =
        .error (.notImplemented "Only ChunkShardingSpec supported for reshard.") ∨
      (ShardedTensor.reshard exSample stTwoShards (ShardingSpec.chunk 0 [⟨0, Device.cpu⟩])).2 =
        .error (.notImplemented "Only single local shard supported for reshard.")) :=
  ⟨(c5_reshard_fails_fast exSample stTwoShards (ShardingSpec.chunk 0 [⟨0, Device.cpu⟩])
      (Or.inr (by decide))).1,
    (c5_reshard_fails_fast exSample stTwoShards (ShardingSpec.chunk 0 [⟨0, Device.cpu⟩])
      (Or.inr (by decide))).2.1⟩

/-- C2: every erroring `reshard` call leaves the local shard list, the
global metadata's shard list and the sharding spec exactly as they were;
and a successful call either changes nothing (the no-op case) or replaces
the three fields together from the completed exchange's output. -/
theorem c2_reshard_atomic (ex : ReshardExchanges) (st : ShardedTensorState)
    (spec : ShardingSpec) :
    (∀ e, (ShardedTensor.reshard ex st spec).2 = .error e →
      (ShardedTensor.reshard ex st spec).1 = st) ∧
    ((ShardedTensor.reshard ex st spec).2 = .ok () →
      ((ShardedTensor.reshard ex st spec).1 = st ∨
        ∃ lt ls smd,
          ShardedTensor.local_tensor st = .ok lt ∧
          (ex.reshuffle_local_shard lt st.metadata.size st.sharding_spec spec = .ok (ls, smd) ∨
            ex.reshard_local_shard lt st.metadata.size st.sharding_spec spec = .ok (ls, smd)) ∧
          (ShardedTensor.reshard ex st spec).1 =
            { st with
                local_shards := ls
                metadata := { st.metadata with shards_metadata := smd }
                sharding_spec := spec })) := by
  unfold ShardedTensor.reshard
  split
  · exact ⟨fun e _ => rfl, by simp⟩
  · split
    · exact ⟨fun e _ => rfl, by simp⟩
    · split
      · split
        · exact ⟨fun e h => by simp at h, fun _ => Or.inl rfl⟩
        · split
          · exact ⟨fun e _ => rfl, by simp_all⟩
          · split
            · exact ⟨fun e _ => rfl, by simp_all⟩
            · rename_i lt hlt scr ls smd hex
              exact ⟨fun e h => by simp at h,
                fun _ => Or.inr ⟨lt, ls, smd, hlt, Or.inl hex, rfl⟩⟩
      · split
        · exact ⟨fun e _ => rfl, by simp_all⟩
        · split
          · exact ⟨fun e _ => rfl, by simp_all⟩
          · rename_i lt hlt scr ls smd hex
            exact ⟨fun e h => by simp at h,
              fun _ => Or.inr ⟨lt, ls, smd, hlt, Or.inr hex, rfl⟩⟩

/-- Witness for C2: the erroring sample call (two local shards) leaves the
instance unchanged. -/
theorem c2_reshard_atomic_witness :
    (ShardedTensor.reshard exSample stTwoShards
      (ShardingSpec.chunk 0 [⟨0, Device.cpu⟩])).2 =
        .error (.notImplemented "Only single local shard supported for reshard.") ∧
    (ShardedTensor.reshard exSample stTwoShards
      (ShardingSpec.chunk 0 [⟨0, Device.cpu⟩])).1 = stTwoShards :=
  ⟨rfl,
    (c2_reshard_atomic exSample stTwoShards (ShardingSpec.chunk 0 [⟨0, Device.cpu⟩])).1
      (.notImplemented "Only single local shard supported for reshard.") rfl⟩

/-- C4 counterexample: `stTwoShards` holds two local shards; its current
spec and the argument spec are the same chunk spec (equal chunking
dimension, equal placement list), yet `reshard` does not return the
unchanged instance as a no-op — it raises the single-local-shard error.
The claim omits the one-local-shard precondition. -/
theorem c4_counterexample :
    stTwoShards.sharding_spec = ShardingSpec.chunk 0 [⟨0, Device.cpu⟩] ∧
    (ShardedTensor.reshard exSample stTwoShards
      (ShardingSpec.chunk 0 [⟨0, Device.cpu⟩])).2 =
        .error (.notImplemented "Only single local shard supported for reshard.") :=
  ⟨rfl, rfl⟩

/-- C4 (amended): for every `ShardedTensor` holding exactly one local shard
whose current spec and the argument spec are both chunk specs with equal
chunking dimension and equal placement lists, `reshard` is a detected no-op
returning the identical unchanged instance; consequently, if a `reshard`
call succeeds and its result holds exactly one local shard, a second call
with the same target spec is a no-op returning the unchanged instance. -/
theorem c4_reshard_idempotent :
    (∀ (ex : ReshardExchanges) (st : ShardedTensorState) (d : Int) (p : List Placement),
      st.sharding_spec = ShardingSpec.chunk d p →
      st.local_shards.length = 1 →
      ShardedTensor.reshard ex st (ShardingSpec.chunk d p) = (st, .ok ())) ∧
    (∀ (ex : ReshardExchanges) (st : ShardedTensorState) (spec : ShardingSpec)
        (st2 : ShardedTensorState),
      ShardedTensor.reshard ex st spec = (st2, .ok ()) →
      st2.local_shards.length = 1 →
      ∀ ex2, ShardedTensor.reshard ex2 st2 spec = (st2, .ok ())) := by
  have noop : ∀ (ex : ReshardExchanges) (st : ShardedTensorState) (d : Int)
      (p : List Placement), st.sharding_spec = ShardingSpec.chunk d p →
      st.local_shards.length = 1 →
      ShardedTensor.reshard ex st (ShardingSpec.chunk d p) = (st, .ok ()) := by
    intro ex st d p hspec hone
    simp [ShardedTensor.reshard, hspec, hone, ShardingSpec.isChunk,
      ShardingSpec.chunkDim, ShardingSpec.chunkPlacements]
  refine ⟨noop, ?_⟩
  intro ex st spec st2 heq hone2 ex2
  -- analyse which branch of the first call produced `(st2, .ok ())`
  unfold ShardedTensor.reshard at heq
  split at heq
  · simp at heq
  · split at heq
    · simp at heq
    · rename_i hc hl
      rw [not_not] at hc
      obtain ⟨hs, hcur⟩ := hc
      obtain ⟨d, p, hspec⟩ : ∃ d p, spec = ShardingSpec.chunk d p := by
        cases spec with
        | chunk d p => exact ⟨d, p, rfl⟩
        | inferred l => simp [ShardingSpec.isChunk] at hs
      subst hspec
      split at heq
      · split at heq
        · -- no-op branch: st2 = st, and the current spec is the same chunk spec
          rename_i hd hp
          have hst : st2 = st := by
            have := congrArg Prod.fst heq
            exact this.symm
          subst hst
          obtain ⟨d2, p2, hspec2⟩ : ∃ d2 p2, st2.sharding_spec = ShardingSpec.chunk d2 p2 := by
            cases h2 : st2.sharding_spec with
            | chunk a b => exact ⟨a, b, rfl⟩
            | inferred l => rw [h2] at hcur; simp [ShardingSpec.isChunk] at hcur
          have hd2 : d2 = d := by
            have := hd
            rw [hspec2] at this
            simpa [ShardingSpec.chunkDim] using this
          have hp2 : p2 = p := by
            have := hp
            rw [hspec2] at this
            simpa [ShardingSpec.chunkPlacements] using this
          exact noop ex2 st2 d p (by rw [hspec2, hd2, hp2]) hone2
        · -- reshuffle branch
          split at heq
          · simp at heq
          · split at heq
            · simp at heq
            · rename_i heq2
              have hst : st2 = { st with
                  local_shards := _, metadata := _, sharding_spec := ShardingSpec.chunk d p } :=
                (congrArg Prod.fst heq).symm
              have hspec2 : st2.sharding_spec = ShardingSpec.chunk d p := by
                rw [hst]
              exact noop ex2 st2 d p hspec2 hone2
      · -- reshard_local_shard branch
        split at heq
        · simp at heq
        · split at heq
          · simp at heq
          · have hst : st2 = { st with
                local_shards := _, metadata := _, sharding_spec := ShardingSpec.chunk d p } :=
              (congrArg Prod.fst heq).symm
            have hspec2 : st2.sharding_spec = ShardingSpec.chunk d p := by
              rw [hst]
            exact noop ex2 st2 d p hspec2 hone2

/-- Witness for C4 (amended): the single-shard sample instance with its own
chunk spec as target is a detected no-op. -/
theorem c4_reshard_idempotent_witness :
    ShardedTensor.reshard exSample stSample
      (ShardingSpec.chunk 0 [⟨0, Device.cpu⟩, ⟨1, Device.cpu⟩]) = (stSample, .ok ()) :=
  c4_reshard_idempotent.1 exSample stSample 0 [⟨0, Device.cpu⟩, ⟨1, Device.cpu⟩] rfl rfl

theorem parse_remote_device_fst (p : Placement) :
    (_parse_and_validate_remote_device p).1 = p.rank := rfl

theorem parse_remote_device_snd (p : Placement) :
    (_parse_and_validate_remote_device p).2 = p.device := rfl

theorem seqChecks_ok_left (b : Except InitError Unit) : seqChecks (.ok ()) b = b := rfl

theorem seqChecks_error_left (e : InitError) (b : Except InitError Unit) :
    seqChecks (.error e) b = .error e := rfl

theorem raise_if_mismatch_eq (v : PropVal) (p : String) (r : Nat) (b : Bool) :
    _raise_if_mismatch v v p r b = .ok () := by
  simp [_raise_if_mismatch]

theorem raise_if_mismatch_ne (v w : PropVal) (p : String) (r : Nat) (b : Bool)
    (h : v ≠ w) : _raise_if_mismatch v w p r b = .error (.mismatch p v w r b) := by
  simp [_raise_if_mismatch, h]

/-- If the per-shard validation of the unique local shard raises, the whole
construction raises that error. -/
theorem init_single_error (current_rank : Nat) (md : ShardedTensorMetadata)
    (s : Shard) (e : InitError)
    (h0 : md.shards_metadata.length ≠ 0)
    (h1 : md.tensor_properties.layout = Layout.strided)
    (h2 : (md.shards_metadata.filter
      (fun m => (_parse_and_validate_remote_device m.placement).1 = current_rank)).length = 1)
    (hv : validateLocalShard md.tensor_properties current_rank
      (md.shards_metadata.filter
        (fun m => (_parse_and_validate_remote_device m.placement).1 = current_rank)) s =
      .error e) :
    ShardedTensor._init_from_local_shards_and_global_metadata current_rank [s] md =
      .error e := by
  simp only [ShardedTensor._init_from_local_shards_and_global_metadata]
  rw [if_neg h0, if_neg (by simp [h1]), if_neg (by simp [h2])]
  simp [validateLocalShards, hv, seqChecks]

/-- C3 counterexample: `shardNotContiguous` matches the metadata `mdOne` in
every declared field except that its buffer is not contiguous.  Contrary to
the claim, the resulting diagnostic is a generic unsupported-memory-format
`ValueError` that names neither the mismatched field, nor the expected and
actual values, nor the participant rank (unlike the structured `mismatch`
diagnostics produced for the other fields). -/
theorem c3_counterexample :
    ShardedTensor._init_from_local_shards_and_global_metadata 0 [shardNotContiguous] mdOne =
      .error (.valueError "Only torch.contiguous_format memory_format is currently supported") := by
  rfl

/-- C3 (amended): when constructing from local shards plus an agreed global
metadata, every declared local shard must appear among the metadata's
shards placed on the current rank (an absent shard fails construction with
an assertion error that names neither field nor rank); a mismatch in
layout, size vector, pinned-memory flag, device, element type, or gradient
flag fails construction with a diagnostic naming the mismatched field, the
expected value, the actual value, and the participant rank; a
non-contiguous local shard buffer instead fails with a generic error
stating that only the contiguous memory format is supported. -/
theorem c3_field_mismatch_diagnostics (current_rank : Nat)
    (md : ShardedTensorMetadata) (s : Shard)
    (h0 : md.shards_metadata.length ≠ 0)
    (h1 : md.tensor_properties.layout = Layout.strided)
    (h2 : (md.shards_metadata.filter
      (fun m => (_parse_and_validate_remote_device m.placement).1 = current_rank)).length = 1) :
    (s.metadata ∉ md.shards_metadata.filter
        (fun m => (_parse_and_validate_remote_device m.placement).1 = current_rank) →
      ShardedTensor._init_from_local_shards_and_global_metadata current_rank [s] md =
        .error (.assertionError "local shard metadata not in sharded_tensor_metadata!")) ∧
    (s.metadata ∈ md.shards_metadata.filter
        (fun m => (_parse_and_validate_remote_device m.placement).1 = current_rank) →
      (s.tensor.layout ≠ md.tensor_properties.layout →
        ShardedTensor._init_from_local_shards_and_global_metadata current_rank [s] md =
          .error (.mismatch "layout" (.layoutVal md.tensor_properties.layout)
            (.layoutVal s.tensor.layout) current_rank true)) ∧
      (s.tensor.layout = md.tensor_properties.layout →
        (s.tensor.contiguous = false →
          ShardedTensor._init_from_local_shards_and_global_metadata current_rank [s] md =
            .error (.valueError "Only torch.contiguous_format memory_format is currently supported")) ∧
        (s.tensor.contiguous = true →
          (s.tensor.sizes ≠ s.metadata.shard_sizes →
            ShardedTensor._init_from_local_shards_and_global_metadata current_rank [s] md =
              .error (.mismatch "size" (.sizesVal s.metadata.shard_sizes)
                (.sizesVal s.tensor.sizes) current_rank false)) ∧
          (s.tensor.sizes = s.metadata.shard_sizes →
            (s.tensor.pinned ≠ md.tensor_properties.pin_memory →
              ShardedTensor._init_from_local_shards_and_global_metadata current_rank [s] md =
                .error (.mismatch "pin_memory" (.boolVal md.tensor_properties.pin_memory)
                  (.boolVal s.tensor.pinned) current_rank true)) ∧
            (s.tensor.pinned = md.tensor_properties.pin_memory →
              (s.tensor.device ≠ s.metadata.placement.device →
                ShardedTensor._init_from_local_shards_and_global_metadata current_rank [s] md =
                  .error (.mismatch "device" (.deviceVal s.metadata.placement.device)
                    (.deviceVal s.tensor.device) current_rank false)) ∧
              (s.tensor.device = s.metadata.placement.device →
                (s.tensor.dtype ≠ md.tensor_properties.dtype →
                  ShardedTensor._init_from_local_shards_and_global_metadata current_rank [s] md =
                    .error (.mismatch "dtype" (.dtypeVal md.tensor_properties.dtype)
                      (.dtypeVal s.tensor.dtype) current_rank true)) ∧
                (s.tensor.dtype = md.tensor_properties.dtype →
                  s.tensor.requires_grad ≠ md.tensor_properties.requires_grad →
                  ShardedTensor._init_from_local_shards_and_global_metadata current_rank [s] md =
                    .error (.mismatch "requires_grad" (.boolVal md.tensor_properties.requires_grad)
                      (.boolVal s.tensor.requires_grad) current_rank true)))))))) := by
  constructor
  · intro hnm
    refine init_single_error _ _ _ _ h0 h1 h2 ?_
    simp only [validateLocalShard, parse_remote_device_snd]
    rw [if_neg hnm, seqChecks_error_left]
  intro hmem
  constructor
  · intro hne
    refine init_single_error _ _ _ _ h0 h1 h2 ?_
    simp only [validateLocalShard, parse_remote_device_snd]
    rw [if_pos hmem, seqChecks_ok_left,
      raise_if_mismatch_ne _ _ _ _ _ (by simpa using Ne.symm hne), seqChecks_error_left]
  intro hlay
  constructor
  · intro hnc
    refine init_single_error _ _ _ _ h0 h1 h2 ?_
    simp only [validateLocalShard, parse_remote_device_snd]
    rw [if_pos hmem, seqChecks_ok_left, hlay, raise_if_mismatch_eq, seqChecks_ok_left,
      if_neg (by simp [hnc]), seqChecks_error_left]
  intro hc
  constructor
  · intro hne
    refine init_single_error _ _ _ _ h0 h1 h2 ?_
    simp only [validateLocalShard, parse_remote_device_snd]
    rw [if_pos hmem, seqChecks_ok_left, hlay, raise_if_mismatch_eq, seqChecks_ok_left,
      if_pos hc, seqChecks_ok_left,
      raise_if_mismatch_ne _ _ _ _ _ (by simpa using Ne.symm hne), seqChecks_error_left]
  intro hsz
  constructor
  · intro hne
    refine init_single_error _ _ _ _ h0 h1 h2 ?_
    simp only [validateLocalShard, parse_remote_device_snd]
    rw [if_pos hmem, seqChecks_ok_left, hlay, raise_if_mismatch_eq, seqChecks_ok_left,
      if_pos hc, seqChecks_ok_left, hsz, raise_if_mismatch_eq, seqChecks_ok_left,
      raise_if_mismatch_ne _ _ _ _ _ (by simpa using Ne.symm hne), seqChecks_error_left]
  intro hpin
  constructor
  · intro hne
    refine init_single_error _ _ _ _ h0 h1 h2 ?_
    simp only [validateLocalShard, parse_remote_device_snd]
    rw [if_pos hmem, seqChecks_ok_left, hlay, raise_if_mismatch_eq, seqChecks_ok_left,
      if_pos hc, seqChecks_ok_left, hsz, raise_if_mismatch_eq, seqChecks_ok_left,
      hpin, raise_if_mismatch_eq, seqChecks_ok_left,
      raise_if_mismatch_ne _ _ _ _ _ (by simpa using Ne.symm hne), seqChecks_error_left]
  intro hdev
  constructor
  · intro hne
    refine init_single_error _ _ _ _ h0 h1 h2 ?_
    simp only [validateLocalShard, parse_remote_device_snd]
    rw [if_pos hmem, seqChecks_ok_left, hlay, raise_if_mismatch_eq, seqChecks_ok_left,
      if_pos hc, seqChecks_ok_left, hsz, raise_if_mismatch_eq, seqChecks_ok_left,
      hpin, raise_if_mismatch_eq, seqChecks_ok_left, hdev, raise_if_mismatch_eq,
      seqChecks_ok_left,
      raise_if_mismatch_ne _ _ _ _ _ (by simpa using Ne.symm hne), seqChecks_error_left]
  intro hdt hne
  refine init_single_error _ _ _ _ h0 h1 h2 ?_
  simp only [validateLocalShard, parse_remote_device_snd]
  rw [if_pos hmem, seqChecks_ok_left, hlay, raise_if_mismatch_eq, seqChecks_ok_left,
    if_pos hc, seqChecks_ok_left, hsz, raise_if_mismatch_eq, seqChecks_ok_left,
    hpin, raise_if_mismatch_eq, seqChecks_ok_left, hdev, raise_if_mismatch_eq,
    seqChecks_ok_left, hdt, raise_if_mismatch_eq, seqChecks_ok_left,
    raise_if_mismatch_ne _ _ _ _ _ (by simpa using Ne.symm hne)]

/-- Witness for C3 (amended): `shardWrongDtype` differs from `mdOne` only
in its element type; construction fails with a diagnostic naming the
`dtype` field, the expected fp32, the actual fp64, and rank 0. -/
theorem c3_field_mismatch_diagnostics_witness :
    ShardedTensor._init_from_local_shards_and_global_metadata 0 [shardWrongDtype] mdOne =
      .error (.mismatch "dtype" (.dtypeVal DType.float32) (.dtypeVal DType.float64) 0 true) :=
  (((((((c3_field_mismatch_diagnostics 0 mdOne shardWrongDtype (by decide) (by decide)
    (by decide)).2 (by decide)).2 (by decide)).2 (by decide)).2 (by decide)).2
      (by decide)).2 (by decide)).1 (by decide)

/-! ### View and copy lemmas for `gather` -/

theorem getD_set_ite {α : Type} (l : List α) (i j : Nat) (a d : α) :
    (l.set i a).getD j d = if i = j ∧ i < l.length then a else l.getD j d := by
  rw [List.getD_eq_getElem?_getD, List.getElem?_set]
  by_cases h : i = j
  · subst h
    by_cases h2 : i < l.length
    · simp [h2]
    · rw [if_pos rfl, if_neg h2, if_neg (fun hc => h2 hc.2), Option.getD_none,
        List.getD_eq_default _ _ (by omega)]
  · rw [if_neg h, if_neg (fun hc => h hc.1), List.getD_eq_getElem?_getD]

theorem getD_replicate_zero (n i : Nat) : (List.replicate n (0 : Nat)).getD i 0 = 0 := by
  rw [List.getD_eq_getElem?_getD, List.getElem?_replicate]
  by_cases h : i < n <;> simp [h]

theorem narrowAllDims_offsets_length (md : ShardMetadata) (n : Nat) :
    ∀ (d : Nat) (v : TensorView),
      (narrowAllDims md v d n).offsets.length = v.offsets.length := by
  induction n with
  | zero => intro d v; rfl
  | succ n ih =>
    intro d v
    rw [narrowAllDims, ih]
    simp [TensorView.narrow]

theorem narrowAllDims_sizes_length (md : ShardMetadata) (n : Nat) :
    ∀ (d : Nat) (v : TensorView),
      (narrowAllDims md v d n).sizes.length = v.sizes.length := by
  induction n with
  | zero => intro d v; rfl
  | succ n ih =>
    intro d v
    rw [narrowAllDims, ih]
    simp [TensorView.narrow]

theorem narrowAllDims_getD (md : ShardMetadata) (n : Nat) :
    ∀ (d : Nat) (v : TensorView) (i : Nat),
      ((narrowAllDims md v d n).offsets.getD i 0 =
        if d ≤ i ∧ i < d + n ∧ i < v.offsets.length
        then v.offsets.getD i 0 + md.shard_offsets.getD i 0
        else v.offsets.getD i 0) ∧
      ((narrowAllDims md v d n).sizes.getD i 0 =
        if d ≤ i ∧ i < d + n ∧ i < v.sizes.length
        then md.shard_sizes.getD i 0
        else v.sizes.getD i 0) := by
  induction n with
  | zero =>
    intro d v i
    constructor <;> · rw [if_neg (by omega)]; rfl
  | succ n ih =>
    intro d v i
    rw [narrowAllDims]
    have hlo : (v.narrow d (md.shard_offsets.getD d 0) (md.shard_sizes.getD d 0)).offsets.length =
        v.offsets.length := by simp [TensorView.narrow]
    have hls : (v.narrow d (md.shard_offsets.getD d 0) (md.shard_sizes.getD d 0)).sizes.length =
        v.sizes.length := by simp [TensorView.narrow]
    obtain ⟨iho, ihs⟩ := ih (d + 1) (v.narrow d (md.shard_offsets.getD d 0) (md.shard_sizes.getD d 0)) i
    have hseto : (v.narrow d (md.shard_offsets.getD d 0) (md.shard_sizes.getD d 0)).offsets.getD i 0 =
        if d = i ∧ d < v.offsets.length
        then v.offsets.getD d 0 + md.shard_offsets.getD d 0
        else v.offsets.getD i 0 := by
      simp only [TensorView.narrow]
      exact getD_set_ite _ _ _ _ _
    have hsets : (v.narrow d (md.shard_offsets.getD d 0) (md.shard_sizes.getD d 0)).sizes.getD i 0 =
        if d = i ∧ d < v.sizes.length
        then md.shard_sizes.getD d 0
        else v.sizes.getD i 0 := by
      simp only [TensorView.narrow]
      exact getD_set_ite _ _ _ _ _
    constructor
    · by_cases h1 : d = i
      · subst h1
        rw [iho, hlo, if_neg (show ¬(d + 1 ≤ d ∧ d < d + 1 + n ∧ d < v.offsets.length)
          by omega), hseto]
        by_cases hd : d < v.offsets.length
        · rw [if_pos ⟨rfl, hd⟩, if_pos ⟨le_refl d, by omega, hd⟩]
        · rw [if_neg (fun hc => hd hc.2), if_neg (fun hc => hd hc.2.2)]
      · have hseto2 : (v.narrow d (md.shard_offsets.getD d 0)
            (md.shard_sizes.getD d 0)).offsets.getD i 0 = v.offsets.getD i 0 := by
          rw [hseto, if_neg (fun hc => h1 hc.1)]
        rw [iho, hlo, hseto2]
        by_cases h2 : d + 1 ≤ i ∧ i < d + 1 + n ∧ i < v.offsets.length
        · rw [if_pos h2, if_pos (by omega)]
        · rw [if_neg h2, if_neg (by omega)]
    · by_cases h1 : d = i
      · subst h1
        rw [ihs, hls, if_neg (show ¬(d + 1 ≤ d ∧ d < d + 1 + n ∧ d < v.sizes.length)
          by omega), hsets]
        by_cases hd : d < v.sizes.length
        · rw [if_pos ⟨rfl, hd⟩, if_pos ⟨le_refl d, by omega, hd⟩]
        · rw [if_neg (fun hc => hd hc.2), if_neg (fun hc => hd hc.2.2)]
      · have hsets2 : (v.narrow d (md.shard_offsets.getD d 0)
            (md.shard_sizes.getD d 0)).sizes.getD i 0 = v.sizes.getD i 0 := by
          rw [hsets, if_neg (fun hc => h1 hc.1)]
        rw [ihs, hls, hsets2]
        by_cases h2 : d + 1 ≤ i ∧ i < d + 1 + n ∧ i < v.sizes.length
        · rw [if_pos h2, if_pos (by omega)]
        · rw [if_neg h2, if_neg (by omega)]

/-- The view built by the narrowing loop of `gather` addresses exactly the
shard's offset/size box. -/
theorem narrowAllDims_base (md : ShardMetadata) (dims : Nat) (outSizes : List Nat)
    (hsz : outSizes.length = dims) (i : Nat) (hi : i < dims) :
    (narrowAllDims md ⟨List.replicate dims 0, outSizes⟩ 0 dims).offsets.getD i 0 =
        md.shard_offsets.getD i 0 ∧
    (narrowAllDims md ⟨List.replicate dims 0, outSizes⟩ 0 dims).sizes.getD i 0 =
        md.shard_sizes.getD i 0 := by
  obtain ⟨ho, hs⟩ := narrowAllDims_getD md dims 0 ⟨List.replicate dims 0, outSizes⟩ i
  constructor
  · rw [ho, if_pos (by simp only [List.length_replicate]; omega), getD_replicate_zero,
      Nat.zero_add]
  · rw [hs, if_pos (by simp only [hsz]; omega)]

theorem all_range_congr (n : Nat) (f g : Nat → Bool) (h : ∀ d, d < n → f d = g d) :
    (List.range n).all f = (List.range n).all g := by
  rw [Bool.eq_iff_iff]
  simp only [List.all_eq_true, List.mem_range]
  exact ⟨fun H d hd => (h d hd) ▸ H d hd, fun H d hd => (h d hd) ▸ H d hd⟩

theorem writeShardIntoOut_sizes (dims : Nat) (out : NDTensor) (s : Shard) :
    (writeShardIntoOut dims out s).sizes = out.sizes := rfl

theorem writeShardIntoOut_data (dims : Nat) (out : NDTensor) (s : Shard)
    (hsz : out.sizes.length = dims) (idx : List Nat) :
    (writeShardIntoOut dims out s).data idx =
      if shardContains s.metadata dims idx then
        s.tensor.data (shardTranslate s.metadata dims idx)
      else out.data idx := by
  have hbase := fun i hi => narrowAllDims_base s.metadata dims out.sizes hsz i hi
  simp only [writeShardIntoOut, copyInto]
  have hc : viewContains
      (narrowAllDims s.metadata ⟨List.replicate dims 0, out.sizes⟩ 0 dims) dims idx =
      shardContains s.metadata dims idx := by
    refine all_range_congr dims _ _ fun d hd => ?_
    rw [(hbase d hd).1, (hbase d hd).2]
  have ht : viewTranslate
      (narrowAllDims s.metadata ⟨List.replicate dims 0, out.sizes⟩ 0 dims) dims idx =
      shardTranslate s.metadata dims idx := by
    refine List.map_congr_left fun d hd => ?_
    rw [(hbase d (List.mem_range.1 hd)).1]
  rw [hc, ht]

theorem writeShardList_sizes (dims : Nat) (l : List Shard) :
    ∀ out : NDTensor, (writeShardList dims out l).sizes = out.sizes := by
  induction l with
  | nil => intro out; rfl
  | cons s rest ih =>
    intro out
    rw [writeShardList, ih, writeShardIntoOut_sizes]

theorem writeShardList_append (dims : Nat) (l1 l2 : List Shard) :
    ∀ out : NDTensor,
      writeShardList dims out (l1 ++ l2) = writeShardList dims (writeShardList dims out l1) l2 := by
  induction l1 with
  | nil => intro out; rfl
  | cons s rest ih =>
    intro out
    rw [List.cons_append, writeShardList, writeShardList, ih]

theorem writeShardList_data_untouched (dims : Nat) (l : List Shard) :
    ∀ (out : NDTensor) (idx : List Nat), out.sizes.length = dims →
      (∀ s ∈ l, shardContains s.metadata dims idx = false) →
      (writeShardList dims out l).data idx = out.data idx := by
  induction l with
  | nil => intro out idx _ _; rfl
  | cons s rest ih =>
    intro out idx hsz h
    rw [writeShardList, ih (writeShardIntoOut dims out s) idx
      (by rw [writeShardIntoOut_sizes]; exact hsz)
      (fun t ht => h t (List.mem_cons_of_mem s ht))]
    rw [writeShardIntoOut_data dims out s hsz idx,
      if_neg (by rw [h s (List.mem_cons_self s rest)]; exact Bool.false_ne_true)]

theorem boxDisjoint_not_contains (a b : ShardMetadata) (dims : Nat)
    (ha : a.shard_offsets.length = dims) (hd : boxDisjoint a b = true) (idx : List Nat) :
    ¬(shardContains a dims idx = true ∧ shardContains b dims idx = true) := by
  rintro ⟨hca, hcb⟩
  simp only [boxDisjoint, List.any_eq_true, List.mem_range, decide_eq_true_eq, ha] at hd
  simp only [shardContains, List.all_eq_true, List.mem_range, decide_eq_true_eq] at hca hcb
  obtain ⟨d, hdlt, hsep⟩ := hd
  have h1 := hca d hdlt
  have h2 := hcb d hdlt
  omega

theorem writeShardList_data_covered (dims : Nat) (l : List Shard) :
    ∀ (out : NDTensor) (s : Shard) (idx : List Nat),
      out.sizes.length = dims →
      shardsNonOverlapping l = true →
      (∀ t ∈ l, t.metadata.shard_offsets.length = dims) →
      s ∈ l → shardContains s.metadata dims idx = true →
      (writeShardList dims out l).data idx =
        s.tensor.data (shardTranslate s.metadata dims idx) := by
  induction l with
  | nil => intro out s idx _ _ _ hs _; cases hs
  | cons h rest ih =>
    intro out s idx hsz hdis hlen hs hc
    rw [shardsNonOverlapping, Bool.and_eq_true] at hdis
    obtain ⟨hall, hrest⟩ := hdis
    rw [List.all_eq_true] at hall
    by_cases hch : shardContains h.metadata dims idx = true
    · have hnone : ∀ u ∈ rest, shardContains u.metadata dims idx = false := by
        intro u hu
        have hbd := hall u hu
        have := boxDisjoint_not_contains h.metadata u.metadata dims
          (hlen h (List.mem_cons_self h rest)) hbd idx
        rcases Bool.eq_false_or_eq_true (shardContains u.metadata dims idx) with ht | hf
        · exact absurd ⟨hch, ht⟩ this
        · exact hf
      rw [writeShardList,
        writeShardList_data_untouched dims rest (writeShardIntoOut dims out h) idx
          (by rw [writeShardIntoOut_sizes]; exact hsz) hnone,
        writeShardIntoOut_data dims out h hsz idx, if_pos hch]
      have hsh : s = h := by
        rcases List.mem_cons.1 hs with rfl | hmem
        · rfl
        · exact absurd hc (by rw [hnone s hmem]; exact Bool.false_ne_true)
      rw [hsh]
    · have hsmem : s ∈ rest := by
        rcases List.mem_cons.1 hs with rfl | hmem
        · exact absurd hc hch
        · exact hmem
      rw [writeShardList]
      exact ih (writeShardIntoOut dims out h) s idx
        (by rw [writeShardIntoOut_sizes]; exact hsz) hrest
        (fun t ht => hlen t (List.mem_cons_of_mem h ht)) hsmem hc

theorem processGathered_allsome (dims : Nat) (entries : List (Option (List Shard))) :
    ∀ out : NDTensor, (∀ e ∈ entries, e ≠ none) →
      processGatheredShards dims entries out =
        .ok (writeShardList dims out (flattenEntries entries)) := by
  induction entries with
  | nil => intro out _; rfl
  | cons e rest ih =>
    intro out hall
    cases e with
    | none => exact absurd rfl (hall none (List.mem_cons_self none rest))
    | some shards =>
      rw [processGatheredShards, flattenEntries, writeShardList_append]
      exact ih (writeShardList dims out shards)
        (fun x hx => hall x (List.mem_cons_of_mem _ hx))

theorem ndtensor_eq (a b : NDTensor) (h1 : a.sizes = b.sizes) (h2 : a.data = b.data) :
    a = b := by
  cases a
  cases b
  simp only at h1 h2
  rw [h1, h2]

/-- With pairwise-disjoint shard boxes, writing a permutation of the same
shard list into the same buffer yields the same buffer. -/
theorem writeShardList_perm (dims : Nat) (out : NDTensor) (l1 l2 : List Shard)
    (hsz : out.sizes.length = dims)
    (hd1 : shardsNonOverlapping l1 = true) (hd2 : shardsNonOverlapping l2 = true)
    (hlen : ∀ t ∈ l1, t.metadata.shard_offsets.length = dims)
    (hperm : l1.Perm l2) :
    writeShardList dims out l1 = writeShardList dims out l2 := by
  have hlen2 : ∀ t ∈ l2, t.metadata.shard_offsets.length = dims := fun t ht =>
    hlen t (hperm.mem_iff.2 ht)
  refine ndtensor_eq _ _ (by rw [writeShardList_sizes, writeShardList_sizes]) ?_
  funext idx
  by_cases hcov : ∃ s ∈ l1, shardContains s.metadata dims idx = true
  · obtain ⟨s, hs, hc⟩ := hcov
    rw [writeShardList_data_covered dims l1 out s idx hsz hd1 hlen hs hc,
      writeShardList_data_covered dims l2 out s idx hsz hd2 hlen2 (hperm.mem_iff.1 hs) hc]
  · push_neg at hcov
    have hf1 : ∀ s ∈ l1, shardContains s.metadata dims idx = false := fun s hs => by
      rcases Bool.eq_false_or_eq_true (shardContains s.metadata dims idx) with ht | hf
      · exact absurd ht (hcov s hs)
      · exact hf
    have hf2 : ∀ s ∈ l2, shardContains s.metadata dims idx = false := fun s hs =>
      hf1 s (hperm.mem_iff.2 hs)
    rw [writeShardList_data_untouched dims l1 out idx hsz hf1,
      writeShardList_data_untouched dims l2 out idx hsz hf2]

/-- C1: on the destination rank with a valid full-size buffer, `gather`
overwrites, for every shard received, the sub-region of `out` obtained by
narrowing each dimension to the shard's offset/size box with that shard's
data; with pairwise non-overlapping shard boxes the final content of `out`
is independent of the order in which shards are processed; and on every
rank other than `dst`, `gather` performs no write to any output buffer
(whenever the call returns, the buffer is exactly as it was passed in). -/
theorem c1_gather_writes (st : ShardedTensorState) (dst : Nat) (o : NDTensor)
    (g1 g2 : List (Option (List Shard)))
    (hsz : o.sizes = st.metadata.size)
    (h1 : ∀ e ∈ g1, e ≠ none) (h2 : ∀ e ∈ g2, e ≠ none)
    (hlen : ∀ s ∈ flattenEntries g1,
      s.metadata.shard_offsets.length = st.metadata.size.length)
    (hd1 : shardsNonOverlapping (flattenEntries g1) = true)
    (hd2 : shardsNonOverlapping (flattenEntries g2) = true)
    (hperm : (flattenEntries g1).Perm (flattenEntries g2)) :
    (∀ (rank : Nat) (out : Option NDTensor) (r : Option NDTensor), rank ≠ dst →
      ShardedTensor.gather st rank dst out g1 = .ok r → r = out) ∧
    (∃ o2, ShardedTensor.gather st dst dst (some o) g1 = .ok (some o2) ∧
      o2.sizes = o.sizes ∧
      ∀ s ∈ flattenEntries g1, ∀ idx,
        shardContains s.metadata st.metadata.size.length idx = true →
        o2.data idx = s.tensor.data (shardTranslate s.metadata st.metadata.size.length idx)) ∧
    ShardedTensor.gather st dst dst (some o) g1 =
      ShardedTensor.gather st dst dst (some o) g2 := by
  have hszlen : o.sizes.length = st.metadata.size.length := by rw [hsz]
  have hvalid : _validate_output_tensor_for_gather dst dst st.metadata.size (some o) =
      .ok () := by
    simp [_validate_output_tensor_for_gather, hsz]
  refine ⟨?_, ?_, ?_⟩
  · intro rank out r hne heq
    simp only [ShardedTensor.gather] at heq
    cases out with
    | none =>
      simp [_validate_output_tensor_for_gather, hne, if_neg hne] at heq
      exact heq.symm
    | some ob =>
      simp [_validate_output_tensor_for_gather, hne, if_neg hne] at heq
  · refine ⟨writeShardList st.metadata.size.length o (flattenEntries g1), ?_, ?_, ?_⟩
    · simp only [ShardedTensor.gather, hvalid, if_pos rfl]
      rw [processGathered_allsome _ _ _ h1]
      simp
    · exact writeShardList_sizes _ _ o
    · intro s hs idx hc
      exact writeShardList_data_covered st.metadata.size.length (flattenEntries g1)
        o s idx hszlen hd1 hlen hs hc
  · simp only [ShardedTensor.gather, hvalid, if_pos rfl]
    rw [processGathered_allsome _ _ _ h1, processGathered_allsome _ _ _ h2,
      writeShardList_perm st.metadata.size.length o (flattenEntries g1)
        (flattenEntries g2) hszlen hd1 hd2 hlen hperm]

/-- Witness for C1: gathering the two sample shards into a `[4]` buffer on
rank 0, in either reception order, succeeds with every shard written into
its box. -/
theorem c1_gather_writes_witness :
    (∃ o2, ShardedTensor.gather stSample 0 0 (some outSample) gatheredSample = .ok (some o2) ∧
      o2.sizes = outSample.sizes ∧
      ∀ s ∈ flattenEntries gatheredSample, ∀ idx,
        shardContains s.metadata stSample.metadata.size.length idx = true →
        o2.data idx =
          s.tensor.data (shardTranslate s.metadata stSample.metadata.size.length idx)) ∧
    ShardedTensor.gather stSample 0 0 (some outSample) gatheredSample =
      ShardedTensor.gather stSample 0 0 (some outSample) gatheredSampleRev := by
  have hall1 : ∀ e ∈ gatheredSample, e ≠ none := by
    intro e he
    simp only [gatheredSample, List.mem_cons, List.mem_singleton, List.not_mem_nil,
      or_false] at he
    rcases he with rfl | rfl <;> simp
  have hall2 : ∀ e ∈ gatheredSampleRev, e ≠ none := by
    intro e he
    simp only [gatheredSampleRev, List.mem_cons, List.mem_singleton, List.not_mem_nil,
      or_false] at he
    rcases he with rfl | rfl <;> simp
  have hlen : ∀ s ∈ flattenEntries gatheredSample,
      s.metadata.shard_offsets.length = stSample.metadata.size.length := by
    intro s hs
    simp only [gatheredSample, flattenEntries, List.cons_append, List.nil_append,
      List.mem_cons, List.mem_singleton, List.not_mem_nil, or_false] at hs
    rcases hs with rfl | rfl <;> rfl
  have hperm : (flattenEntries gatheredSample).Perm (flattenEntries gatheredSampleRev) := by
    show [shardA, shardB].Perm [shardB, shardA]
    exact List.Perm.swap shardB shardA []
  exact ⟨(c1_gather_writes stSample 0 outSample gatheredSample gatheredSampleRev rfl
      hall1 hall2 hlen (by decide) (by decide) hperm).2.1,
    (c1_gather_writes stSample 0 outSample gatheredSample gatheredSampleRev rfl
      hall1 hall2 hlen (by decide) (by decide) hperm).2.2⟩

/-! ### Lemmas for `cpu` -/

theorem isCpu_iff (d : Device) : d.isCpu = true ↔ d = Device.cpu := by
  cases d <;> simp [Device.isCpu]

theorem setPlacementDeviceCpu_self (m : ShardMetadata)
    (h : m.placement.device = Device.cpu) : setPlacementDeviceCpu m = m := by
  cases m with
  | mk o s p =>
    cases p with
    | mk r d =>
      simp only [setPlacementDeviceCpu]
      simp only at h
      subst h
      rfl

theorem mapIfNot_eq (l : List ShardMetadata) :
    (l.map fun meta =>
      if meta.placement.device.isCpu then meta else setPlacementDeviceCpu meta) =
      l.map setPlacementDeviceCpu :=
  List.map_congr_left fun m _ => by
    by_cases h : m.placement.device.isCpu
    · rw [if_pos h, setPlacementDeviceCpu_self m ((isCpu_iff _).1 h)]
    · rw [if_neg h]

theorem boxDisjoint_setCpu (a b : ShardMetadata) :
    boxDisjoint (setPlacementDeviceCpu a) (setPlacementDeviceCpu b) = boxDisjoint a b := rfl

theorem pairwiseNonOverlapping_map_setCpu (l : List ShardMetadata) :
    pairwiseNonOverlapping (l.map setPlacementDeviceCpu) = pairwiseNonOverlapping l := by
  induction l with
  | nil => rfl
  | cons m rest ih =>
    have hfn : ((fun m2 => boxDisjoint (setPlacementDeviceCpu m) m2) ∘ setPlacementDeviceCpu) =
        fun m2 => boxDisjoint m m2 := funext fun m2 => boxDisjoint_setCpu m m2
    rw [List.map_cons, pairwiseNonOverlapping, pairwiseNonOverlapping, ih,
      List.all_map, hfn]

theorem filter_rank_map_setCpu (l : List ShardMetadata) (r : Nat) :
    ((l.map setPlacementDeviceCpu).filter
      (fun m => (_parse_and_validate_remote_device m.placement).1 = r)) =
    (l.filter (fun m => (_parse_and_validate_remote_device m.placement).1 = r)).map
      setPlacementDeviceCpu := by
  rw [List.filter_map]
  congr 1

theorem localTensor_cpu_layout (t : LocalTensor) (mf : MemoryFormat) :
    (LocalTensor.cpu t mf).layout = t.layout := by
  simp only [LocalTensor.cpu]
  by_cases h : t.device = Device.cpu
  · rw [if_pos h]
  · rw [if_neg h]

theorem localTensor_cpu_dtype (t : LocalTensor) (mf : MemoryFormat) :
    (LocalTensor.cpu t mf).dtype = t.dtype := by
  simp only [LocalTensor.cpu]
  by_cases h : t.device = Device.cpu
  · rw [if_pos h]
  · rw [if_neg h]

theorem localTensor_cpu_requires_grad (t : LocalTensor) (mf : MemoryFormat) :
    (LocalTensor.cpu t mf).requires_grad = t.requires_grad := by
  simp only [LocalTensor.cpu]
  by_cases h : t.device = Device.cpu
  · rw [if_pos h]
  · rw [if_neg h]

theorem localTensor_cpu_sizes (t : LocalTensor) (mf : MemoryFormat) :
    (LocalTensor.cpu t mf).sizes = t.sizes := by
  simp only [LocalTensor.cpu]
  by_cases h : t.device = Device.cpu
  · rw [if_pos h]
  · rw [if_neg h]

theorem localTensor_cpu_contiguous (t : LocalTensor) (mf : MemoryFormat) :
    (LocalTensor.cpu t mf).contiguous = t.contiguous := by
  simp only [LocalTensor.cpu]
  by_cases h : t.device = Device.cpu
  · rw [if_pos h]
  · rw [if_neg h]

theorem localTensor_cpu_device (t : LocalTensor) (mf : MemoryFormat) :
    (LocalTensor.cpu t mf).device = Device.cpu := by
  simp only [LocalTensor.cpu]
  by_cases h : t.device = Device.cpu
  · rw [if_pos h]; exact h
  · rw [if_neg h]

theorem localTensor_cpu_pinned (t : LocalTensor) (mf : MemoryFormat)
    (hp : t.device ≠ Device.cpu → t.pinned = false) :
    (LocalTensor.cpu t mf).pinned = t.pinned := by
  simp only [LocalTensor.cpu]
  by_cases h : t.device = Device.cpu
  · rw [if_pos h]
  · rw [if_neg h]
    exact (hp h).symm

theorem validateLocalShard_ok (tp : TensorProperties) (current_rank : Nat)
    (metas : List ShardMetadata) (s : Shard)
    (hmem : s.metadata ∈ metas)
    (hlay : s.tensor.layout = tp.layout)
    (hcont : s.tensor.contiguous = true)
    (hszs : s.tensor.sizes = s.metadata.shard_sizes)
    (hpin : s.tensor.pinned = tp.pin_memory)
    (hdev : s.tensor.device = s.metadata.placement.device)
    (hdt : s.tensor.dtype = tp.dtype)
    (hrg : s.tensor.requires_grad = tp.requires_grad) :
    validateLocalShard tp current_rank metas s = .ok () := by
  simp only [validateLocalShard, parse_remote_device_snd]
  rw [if_pos hmem, seqChecks_ok_left, hlay, raise_if_mismatch_eq, seqChecks_ok_left,
    if_pos hcont, seqChecks_ok_left, hszs, raise_if_mismatch_eq, seqChecks_ok_left,
    hpin, raise_if_mismatch_eq, seqChecks_ok_left, hdev, raise_if_mismatch_eq,
    seqChecks_ok_left, hdt, raise_if_mismatch_eq, seqChecks_ok_left, hrg,
    raise_if_mismatch_eq]

theorem validateLocalShards_ok (tp : TensorProperties) (current_rank : Nat)
    (metas : List ShardMetadata) :
    ∀ shards : List Shard,
      (∀ s ∈ shards, validateLocalShard tp current_rank metas s = .ok ()) →
      validateLocalShards tp current_rank metas shards = .ok () := by
  intro shards
  induction shards with
  | nil => intro _; rfl
  | cons s rest ih =>
    intro h
    rw [validateLocalShards, h s (List.mem_cons_self s rest), seqChecks_ok_left]
    exact ih fun t ht => h t (List.mem_cons_of_mem s ht)

/-- When every check passes, `_init_from_local_shards_and_global_metadata`
succeeds and returns the assembled instance. -/
theorem init_ok (current_rank : Nat) (shards : List Shard) (md : ShardedTensorMetadata)
    (h0 : md.shards_metadata.length ≠ 0)
    (h1 : md.tensor_properties.layout = Layout.strided)
    (h2 : shards.length = (md.shards_metadata.filter
      (fun m => (_parse_and_validate_remote_device m.placement).1 = current_rank)).length)
    (h3 : validateLocalShards md.tensor_properties current_rank
      (md.shards_metadata.filter
        (fun m => (_parse_and_validate_remote_device m.placement).1 = current_rank))
      shards = .ok ())
    (h4 : pairwiseNonOverlapping md.shards_metadata = true)
    (h5 : md.shards_metadata.all (withinBounds md.size) = true)
    (h6 : (md.shards_metadata.map boxVolume).sum = md.size.foldl (· * ·) 1) :
    ShardedTensor._init_from_local_shards_and_global_metadata current_rank shards md =
      .ok { local_shards := shards, metadata := md,
            sharding_spec := _infer_sharding_spec_from_shards_metadata md.shards_metadata,
            remote_shards := fun _ => none } := by
  simp only [ShardedTensor._init_from_local_shards_and_global_metadata, h3,
    validate_non_overlapping_shards_metadata, check_tensor]
  rw [if_neg h0, if_neg (by simp [h1]), if_neg (by simp [h2]), if_pos h4,
    if_pos ⟨h5, h6⟩]

/-- C10: for every well-formed `ShardedTensor` all of whose metadata shard
placements are on CPU devices, `cpu()` returns the very same instance with
no copy performed; otherwise it returns a freshly constructed instance
whose metadata placements are all rewritten to CPU (the original instance
is a value here, hence trivially unmodified). -/
theorem c10_cpu_identity_or_fresh (current_rank : Nat) (st : ShardedTensorState)
    (hwf : wellFormedForCpu current_rank st = true) :
    ((st.metadata.shards_metadata.all fun meta => meta.placement.device.isCpu) = true →
      ShardedTensor.cpu current_rank st MemoryFormat.preserve_format =
        .ok CpuResult.same) ∧
    ((st.metadata.shards_metadata.all fun meta => meta.placement.device.isCpu) = false →
      ∃ st2, ShardedTensor.cpu current_rank st MemoryFormat.preserve_format =
          .ok (CpuResult.fresh st2) ∧
        (st2.metadata.shards_metadata.all fun meta => meta.placement.device.isCpu) = true ∧
        st2.metadata.size = st.metadata.size ∧
        st2.local_shards.length = st.local_shards.length) := by
  simp only [wellFormedForCpu, Bool.and_eq_true, bne_iff_ne, beq_iff_eq,
    List.all_eq_true] at hwf
  obtain ⟨⟨⟨⟨⟨⟨hne, hlay⟩, hcount⟩, hcons⟩, hpair⟩, hbounds⟩, hvol⟩ := hwf
  constructor
  · intro hall
    simp only [ShardedTensor.cpu]
    rw [if_neg (by simp), if_pos hall]
  · intro hnall
    simp only [ShardedTensor.cpu]
    rw [if_neg (by simp), if_neg (by rw [hnall]; exact Bool.false_ne_true), mapIfNot_eq]
    have hconsistent : ∀ s ∈ st.local_shards,
        shardConsistent st.metadata.tensor_properties
          (st.metadata.shards_metadata.filter
            (fun m => (_parse_and_validate_remote_device m.placement).1 = current_rank)) s =
          true := hcons
    have hv : validateLocalShards st.metadata.tensor_properties current_rank
        ((st.metadata.shards_metadata.map setPlacementDeviceCpu).filter
          (fun m => (_parse_and_validate_remote_device m.placement).1 = current_rank))
        (st.local_shards.map fun shard =>
          Shard.mk (shard.tensor.cpu MemoryFormat.preserve_format)
            (setPlacementDeviceCpu shard.metadata)) = .ok () := by
      refine validateLocalShards_ok _ _ _ _ fun s2 hs2 => ?_
      obtain ⟨s, hs, rfl⟩ := List.mem_map.1 hs2
      have hc := hconsistent s hs
      simp only [shardConsistent, Bool.and_eq_true, beq_iff_eq, decide_eq_true_eq,
        Bool.or_eq_true, Bool.not_eq_true'] at hc
      obtain ⟨⟨⟨⟨⟨⟨⟨hmem, hslay⟩, hscont⟩, hssz⟩, hspin⟩, hsdev⟩, hsdt⟩, hsrg⟩ := hc
      have hpinned : (s.tensor.cpu MemoryFormat.preserve_format).pinned =
          st.metadata.tensor_properties.pin_memory := by
        rw [localTensor_cpu_pinned s.tensor MemoryFormat.preserve_format
          (fun hnc => ?_), hspin]
        rcases hsdev with hcpu | hnp
        · exact absurd hcpu hnc
        · exact hnp
      refine validateLocalShard_ok _ _ _ _ ?_ ?_ ?_ ?_ ?_ ?_ ?_ ?_
      · rw [filter_rank_map_setCpu]
        exact List.mem_map_of_mem setPlacementDeviceCpu hmem
      · rw [localTensor_cpu_layout, hslay]
      · rw [localTensor_cpu_contiguous]
        exact hscont
      · rw [localTensor_cpu_sizes, hssz]
        rfl
      · exact hpinned
      · rw [localTensor_cpu_device]
        rfl
      · rw [localTensor_cpu_dtype, hsdt]
      · rw [localTensor_cpu_requires_grad, hsrg]
    have hinit := init_ok current_rank
      (st.local_shards.map fun shard =>
        Shard.mk (shard.tensor.cpu MemoryFormat.preserve_format)
          (setPlacementDeviceCpu shard.metadata))
      { st.metadata with
          shards_metadata := st.metadata.shards_metadata.map setPlacementDeviceCpu }
      (by simpa using hne)
      hlay
      (by
        rw [List.length_map]
        show st.local_shards.length =
          ((st.metadata.shards_metadata.map setPlacementDeviceCpu).filter
            (fun m => (_parse_and_validate_remote_device m.placement).1 = current_rank)).length
        rw [filter_rank_map_setCpu, List.length_map]
        exact hcount)
      hv
      (by
        show pairwiseNonOverlapping
          (st.metadata.shards_metadata.map setPlacementDeviceCpu) = true
        rw [pairwiseNonOverlapping_map_setCpu]
        exact hpair)
      (by
        show ((st.metadata.shards_metadata.map setPlacementDeviceCpu).all
          (withinBounds st.metadata.size)) = true
        rw [List.all_map]
        rw [List.all_eq_true]
        intro m hm
        exact hbounds m hm)
      (by
        show (((st.metadata.shards_metadata.map setPlacementDeviceCpu).map boxVolume).sum) =
          st.metadata.size.foldl (· * ·) 1
        rw [List.map_map]
        exact hvol)
    rw [hinit]
    refine ⟨_, rfl, ?_, rfl, List.length_map _ _⟩
    show ((st.metadata.shards_metadata.map setPlacementDeviceCpu).all
      fun meta => meta.placement.device.isCpu) = true
    rw [List.all_eq_true]
    intro m hm
    obtain ⟨m0, _, rfl⟩ := List.mem_map.1 hm
    rfl

/-- Witness for C10: the CUDA-placed sample is well-formed and not all on
CPU, so `cpu()` returns a fresh instance with all placements on CPU. -/
theorem c10_cpu_identity_or_fresh_witness :
    ∃ st2, ShardedTensor.cpu 0 stCuda MemoryFormat.preserve_format =
        .ok (CpuResult.fresh st2) ∧
      (st2.metadata.shards_metadata.all fun meta => meta.placement.device.isCpu) = true ∧
      st2.metadata.size = stCuda.metadata.size ∧
      st2.local_shards.length = stCuda.local_shards.length :=
  (c10_cpu_identity_or_fresh 0 stCuda (by decide)).2 (by decide)

end TorchShard
